import Mathlib

/-!
# gpx2ts: per-second resampling of a GPS track

A shallow embedding of `main.go`.

Conventions of the embedding.

* An instant (`time.Time`) is the number of nanoseconds since the Unix epoch, an
  integer; a `time.Duration` is an `int64` count of nanoseconds, and `Time.Sub`
  saturates at the ends of that range as the library does.
* `Duration.Seconds` and `Duration.Hours` return a `float64`.  The finite
  `float64` values are rationals, and the two functions are embedded with the
  rounding of every floating-point operation they perform (`roundF64`, round to
  nearest, ties to even), because `int(tdiff.Seconds())` decides how often the
  inner loop runs.
* Latitude, longitude, elevation, distance and speed are `float64` in the source.
  In the rows they are embedded as real numbers with exact arithmetic
  (`haversine`, the field `Speed`): the reading in which the formulas of the
  interpolation, of the speed and of the distance are stated.  Exact arithmetic
  does not show a NaN, so the sign and the domain of the distance are settled on
  the float64 evaluation instead: `haversine64` and `Speed64` carry the rounding
  of every operation, the kernels of `math.Sin` and `math.Cos`, the correctly
  rounded `math.Sqrt` and the NaN of `math.Asin` outside `[-1, 1]`.
* The text of a `<time>` element is represented by what
  `time.Parse(time.RFC3339, ·)` makes of it: `some t` for the instant it denotes,
  `none` when parsing fails.
* The loops of `main` are embedded sequentially: `main` returns the rows in the
  order in which the loops send them on `csvChan`.  The two goroutines and the
  two unbuffered channels are embedded as a step relation on `Pipeline`, whose
  runs are the interleavings of the producer and the consumer.
-/

namespace Gpx2ts

/-! ## IEEE 754 binary64 rounding on the rationals -/

/-- Nearest integer to `x`, a tie going to the even neighbour. -/
def roundHalfEven (x : ℚ) : ℤ :=
  if 2 * (x - ⌊x⌋) < 1 then ⌊x⌋
  else if 1 < 2 * (x - ⌊x⌋) then ⌊x⌋ + 1
  else if ⌊x⌋ % 2 = 0 then ⌊x⌋ else ⌊x⌋ + 1

/-- Exponent of the spacing of the binary64 grid around `x ≠ 0`: 52 below the
binary exponent of `x`, which is kept at `-1022` in the subnormal range. -/
def ulpExp (x : ℚ) : ℤ :=
  max (Int.log 2 |x|) (-1022) - 52

/-- Value of the `float64` nearest to the rational `x` (round to nearest, ties to
even).  Overflow to infinity (`|x| ≥ 2^1024`) is not represented. -/
def roundF64 (x : ℚ) : ℚ :=
  if x = 0 then 0 else roundHalfEven (x / 2 ^ ulpExp x) * 2 ^ ulpExp x

/-- Conversion `int(f)` of a `float64`: the fractional part is discarded
(truncation towards zero). -/
def toInt (x : ℚ) : ℤ :=
  if 0 ≤ x then ⌊x⌋ else ⌈x⌉

/-! ## The `time` package -/

/-- An instant, in nanoseconds since 1970-01-01T00:00:00Z. -/
abbrev Time := ℤ

/-- An elapsed time, in nanoseconds (`int64`). -/
abbrev Duration := ℤ

/-- The constant `time.Second`. -/
def Second : Duration := 1000000000

/-- The constant `time.Hour`. -/
def Hour : Duration := 3600000000000

/-- Smallest `Duration`, `-1 << 63`. -/
def minDuration : Duration := -9223372036854775808

/-- Largest `Duration`, `1<<63 - 1`. -/
def maxDuration : Duration := 9223372036854775807

/-- The zero value `time.Time{}`: 0001-01-01T00:00:00Z. -/
def zeroTime : Time := -62135596800000000000

/-- Method `t.Sub(u)`: the duration `t - u`, or the largest (smallest) duration
when the difference is above (below) the range of `Duration`. -/
def Time.Sub (t u : Time) : Duration :=
  if maxDuration < t - u then maxDuration
  else if t - u < minDuration then minDuration
  else t - u

/-- Method `t.Unix()`: whole seconds since the epoch. -/
def Time.Unix (t : Time) : ℤ :=
  t / 1000000000

/-- Method `d.Seconds()`:
`sec := d / Second; nsec := d % Second; return float64(sec) + float64(nsec)/1e9`,
where `/` and `%` on `int64` truncate towards zero. -/
def Duration.Seconds (d : Duration) : ℚ :=
  roundF64 (roundF64 (Int.tdiv d Second) + roundF64 (roundF64 (Int.tmod d Second) / 1000000000))

/-- Method `d.Hours()`:
`hour := d / Hour; nsec := d % Hour; return float64(hour) + float64(nsec)/(60*60*1e9)`. -/
def Duration.Hours (d : Duration) : ℚ :=
  roundF64 (roundF64 (Int.tdiv d Hour) + roundF64 (roundF64 (Int.tmod d Hour) / 3600000000000))

/-- Outcome of `time.Parse(time.RFC3339, s)` for the text `s` of a `<time>`
element, which is represented by `some t` when it denotes the instant `t` and by
`none` when it is malformed: the parsed instant (the zero `Time` on failure) and
whether `err != nil`. -/
def Parse (s : Option Time) : Time × Bool :=
  match s with
  | some t => (t, false)
  | none => (zeroTime, true)

/-! ## GeoMath -/

/-- The local `R` of `haversine`: `6378.137 * 1000.0`. -/
noncomputable def haversineR : ℝ := 6378.137 * 1000.0

/-- The local `R` of `reverseHaversine`: `6378.137 * 1000`. -/
noncomputable def reverseHaversineR : ℝ := 6378.137 * 1000

/-- Function `math.Atan2(y, x)` on the reals. -/
noncomputable def Atan2 (y x : ℝ) : ℝ :=
  if 0 < x then Real.arctan (y / x)
  else if x < 0 then (if 0 ≤ y then Real.arctan (y / x) + Real.pi else Real.arctan (y / x) - Real.pi)
  else if 0 < y then Real.pi / 2
  else if y < 0 then -(Real.pi / 2)
  else 0

/-- Function `reverseHaversine` of `main.go`. -/
noncomputable def reverseHaversine (lat lon bearing distance : ℝ) : ℝ × ℝ :=
  let R := reverseHaversineR
  let lat1 := lat * Real.pi / 180.0
  let lon1 := lon * Real.pi / 180.0
  let theta := bearing * Real.pi / 180.0
  let lat2 := Real.arcsin (Real.sin lat1 * Real.cos (distance / R) +
    Real.cos lat1 * Real.sin (distance / R) * Real.cos theta)
  let lon2 := lon1 + Atan2 (Real.sin theta * Real.sin (distance / R) * Real.cos lat1)
    (Real.cos (distance / R) - Real.sin lat1 * Real.sin lat2)
  (lat2 * 180.0 / Real.pi, lon2 * 180.0 / Real.pi)

/-- Function `haversine` of `main.go`, its arithmetic taken as exact: the value of the
formula on the reals.  The value the code computes, with the rounding of every float64
operation and the NaN of `math.Asin` above 1, is `haversine64` below. -/
noncomputable def haversine (lat1 lon1 lat2 lon2 : ℝ) : ℝ :=
  let rlat1 := lat1 * Real.pi / 180.0
  let rlon1 := lon1 * Real.pi / 180.0
  let rlat2 := lat2 * Real.pi / 180.0
  let rlon2 := lon2 * Real.pi / 180.0
  let R := haversineR
  let phi := Real.sin ((rlat2 - rlat1) / 2.0)
  let lambda := Real.sin ((rlon2 - rlon1) / 2.0)
  Real.arcsin (Real.sqrt (phi * phi + Real.cos rlat1 * Real.cos rlat2 * lambda * lambda)) * 2 * R

/-! ## The data of `main.go` -/

/-- One `<trkpt>`: an element of `gpxStruct.Trk.TrkSeg[_].TrkPt`. -/
structure TrkPt where
  /-- Attribute `lat`, degrees. -/
  Lat : ℝ
  /-- Attribute `lon`, degrees. -/
  Lon : ℝ
  /-- Element `ele`, metres. -/
  Ele : ℝ
  /-- Element `time`, by what `time.Parse` makes of its text. -/
  Time : Option Time

/-- One `<trkseg>`: an element of `gpxStruct.Trk.TrkSeg`. -/
structure TrkSeg where
  /-- The points of the segment, in document order. -/
  TrkPt : List TrkPt

/-- The field `Trk` of `gpxStruct`. -/
structure Trk where
  /-- Element `name`. -/
  Name : String
  /-- The segments of the track, in document order. -/
  TrkSeg : List TrkSeg

/-- The decoded track document. -/
structure gpxStruct where
  /-- Element `trk`. -/
  Trk : Trk

/-- One output row. -/
structure CSV where
  /-- Column `time`. -/
  Time : ℤ
  /-- Column `lat`. -/
  Lat : ℝ
  /-- Column `lon`. -/
  Lon : ℝ
  /-- Column `speed`. -/
  Speed : ℝ
  /-- Column `altitude`. -/
  Altitude : ℝ
  /-- Column `riderCadence`. -/
  Cadence : ℝ
  /-- Column `remainingEnergy`. -/
  RemainingEnergy : ℝ
  /-- Column `power`. -/
  Power : ℝ

/-! ## The resampling loop of `main` -/

/-- Body of the inner loop (lines 114-118) at index `i`: the row that is sent on
`csvChan`.  The fields the composite literal does not name are zero.  Where
`tdiff.Hours()` is `0` the source divides by a floating-point zero; the value of
`Speed` in that case is not represented (here it is `0`).  The field `Speed` holds the
quotient in exact arithmetic; the float64 value the code writes, which can be NaN, is
`Speed64`. -/
noncomputable def innerBody (last pt : TrkPt) (t : Time) (tdiff : Duration) (d : ℝ) (i : ℕ) : CSV :=
  let lat := last.Lat + (i : ℝ) * (pt.Lat - last.Lat)
  let lon := last.Lon + (i : ℝ) * (pt.Lon - last.Lon)
  let ele := last.Ele + (i : ℝ) * (pt.Ele - last.Ele)
  { Time := Time.Unix t + (i : ℤ), Speed := d / (Duration.Hours tdiff : ℝ) / 10, Lat := lat, Lon := lon,
    Altitude := ele, Cadence := 0, RemainingEnergy := 0, Power := 0 }

/-- The inner loop `for i := 0; i < int(tdiff.Seconds()); i++` (lines 113-120):
the rows it sends, in order. -/
noncomputable def innerLoop (last pt : TrkPt) (t : Time) (tdiff : Duration) (d : ℝ) : List CSV :=
  (List.range (toInt (Duration.Seconds tdiff)).toNat).map (innerBody last pt t tdiff d)

/-- The rows sent for the pair `(last, pt)` by one pass of the outer loop body
(lines 104-120), `lastTime` being the instant kept for `last`. -/
noncomputable def pairSamples (last : TrkPt) (lastTime : Time) (pt : TrkPt) : List CSV :=
  let t := (Parse pt.Time).1
  let tdiff := Time.Sub t lastTime
  let d := haversine pt.Lat pt.Lon last.Lat last.Lon
  innerLoop last pt t tdiff d

/-- The variables the outer loop carries, and the rows sent on `csvChan` so far. -/
structure LoopState where
  /-- Variable `last`. -/
  last : TrkPt
  /-- Variable `lastTime`. -/
  lastTime : Time
  /-- Rows sent on `csvChan`, oldest first. -/
  sent : List CSV

/-- One pass of the outer loop body (lines 104-122) for the point `pt`. -/
noncomputable def loopBody (s : LoopState) (pt : TrkPt) : LoopState :=
  { last := pt
    lastTime := (Parse pt.Time).1
    sent := s.sent ++ pairSamples s.last s.lastTime pt }

/-- The outer loop `for _, pt := range gpx.Trk.TrkSeg[0].TrkPt[1:]` (lines 103-123). -/
noncomputable def outerLoop (s : LoopState) (pts : List TrkPt) : LoopState :=
  pts.foldl loopBody s

/-- How a run of `main` can end early: an index expression out of range. -/
inductive RuntimePanic where
  /-- The panic `index out of range [0] with length 0`. -/
  | indexOutOfRange
  deriving DecidableEq, Repr

/-- Function `main`, from the decoded document to the rows its loops send on
`csvChan`, in the order of sending.  The errors of
`xml.Unmarshal` and `time.Parse` and the two length checks only build an error
value that is dropped; `gpx.Trk.TrkSeg[0]` and `TrkPt[0]` panic on an empty
slice, before the consumer goroutine is started. -/
noncomputable def main (gpx : gpxStruct) : Except RuntimePanic (List CSV) :=
  match gpx.Trk.TrkSeg with
  | [] => Except.error RuntimePanic.indexOutOfRange
  | seg :: _ =>
    match seg.TrkPt with
    | [] => Except.error RuntimePanic.indexOutOfRange
    | last :: rest =>
      let lastTime := (Parse last.Time).1
      Except.ok (outerLoop { last := last, lastTime := lastTime, sent := [] } rest).sent


/-! ## The distance and destination formulas as the specification words them -/

/-- Degrees to radians. -/
noncomputable def radians (deg : ℝ) : ℝ := deg * Real.pi / 180

/-- The great-circle distance of the specification for an Earth radius `R`:
`d = 2·R·asin(√(sin²(Δlat/2) + cos(lat1)·cos(lat2)·sin²(Δlon/2)))` on the points
converted to radians. -/
noncomputable def specDistance (R lat1 lon1 lat2 lon2 : ℝ) : ℝ :=
  2 * R * Real.arcsin (Real.sqrt (Real.sin ((radians lat2 - radians lat1) / 2) ^ 2
    + Real.cos (radians lat1) * Real.cos (radians lat2)
      * Real.sin ((radians lon2 - radians lon1) / 2) ^ 2))

/-- The destination point of the specification for an Earth radius `R`: the
direct spherical formula with `asin` and `atan2`, the result in degrees. -/
noncomputable def specDestination (R lat lon bearingDegrees distanceMeters : ℝ) : ℝ × ℝ :=
  let delta := distanceMeters / R
  let lat2 := Real.arcsin (Real.sin (radians lat) * Real.cos delta
    + Real.cos (radians lat) * Real.sin delta * Real.cos (radians bearingDegrees))
  let lon2 := radians lon + Atan2 (Real.sin (radians bearingDegrees) * Real.sin delta * Real.cos (radians lat))
    (Real.cos delta - Real.sin (radians lat) * Real.sin lat2)
  (lat2 * 180 / Real.pi, lon2 * 180 / Real.pi)

/-! ## Concrete tracks -/

/-- The first fix of the scenario of the specification, at 2023-01-01T00:00:00Z. -/
noncomputable def scenarioFix0 : TrkPt :=
  { Lat := 0.0, Lon := 0.0, Ele := 0, Time := some 1672531200000000000 }

/-- The second fix of the scenario of the specification, at 2023-01-01T00:00:03Z. -/
noncomputable def scenarioFix1 : TrkPt :=
  { Lat := 0.001, Lon := 0.0, Ele := 10, Time := some 1672531203000000000 }

/-- The document of the scenario: one segment with the two fixes. -/
noncomputable def scenarioTrack : gpxStruct :=
  { Trk := { Name := "scenario", TrkSeg := [{ TrkPt := [scenarioFix0, scenarioFix1] }] } }

/-- A fix at 1970-01-01T00:00:00Z. -/
noncomputable def longGapFix0 : TrkPt :=
  { Lat := 0, Lon := 0, Ele := 0, Time := some 0 }

/-- A fix at 1970-07-14T04:20:16.999999999Z, that is 16777216.999999999 s later. -/
noncomputable def longGapFix1 : TrkPt :=
  { Lat := 0, Lon := 0, Ele := 0, Time := some 16777216999999999 }

/-- A fix at 2023-01-01T00:00:10Z. -/
noncomputable def unevenFix1 : TrkPt :=
  { Lat := 0.001, Lon := 0.0, Ele := 10, Time := some 1672531210000000000 }

/-- A fix at 2023-01-01T00:00:11Z. -/
noncomputable def unevenFix2 : TrkPt :=
  { Lat := 0.002, Lon := 0.0, Ele := 20, Time := some 1672531211000000000 }

/-- A document of one segment with fixes at 00:00:00, 00:00:10 and 00:00:11. -/
noncomputable def unevenTrack : gpxStruct :=
  { Trk := { Name := "uneven", TrkSeg := [{ TrkPt := [scenarioFix0, unevenFix1, unevenFix2] }] } }

/-! ## The normalised interpolation of the specification -/

/-- The interpolation the specification asks for:
`value(last) + fraction·(value(next) − value(last))` with `fraction = i / elapsedSeconds`. -/
noncomputable def specInterpolate (vLast vNext elapsedSeconds : ℝ) (i : ℕ) : ℝ :=
  vLast + ((i : ℝ) / elapsedSeconds) * (vNext - vLast)

/-- A row has the latitude, longitude and altitude the normalised interpolation gives at
index `i` for the pair `(last, pt)` with `elapsedSeconds` seconds between the fixes. -/
def AgreesWithNormalised (last pt : TrkPt) (elapsedSeconds : ℝ) (i : ℕ) (c : CSV) : Prop :=
  c.Lat = specInterpolate last.Lat pt.Lat elapsedSeconds i ∧
    c.Lon = specInterpolate last.Lon pt.Lon elapsedSeconds i ∧
    c.Altitude = specInterpolate last.Ele pt.Ele elapsedSeconds i

/-! ## Further concrete tracks -/

/-- A fix whose `<time>` text does not parse. -/
noncomputable def unparsedFix : TrkPt :=
  { Lat := 0.0, Lon := 0.0, Ele := 0, Time := none }

/-- A document of one segment: a fix whose time does not parse, then the fix of
2023-01-01T00:00:03Z. -/
noncomputable def unparsedTrack : gpxStruct :=
  { Trk := { Name := "unparsed", TrkSeg := [{ TrkPt := [unparsedFix, scenarioFix1] }] } }

/-- A document of one segment: the fix of 2023-01-01T00:00:00Z, then a fix whose time does
not parse. -/
noncomputable def unparsedLastTrack : gpxStruct :=
  { Trk := { Name := "unparsed", TrkSeg := [{ TrkPt := [scenarioFix0, unparsedFix] }] } }

/-- A fix at 1700-01-01T00:00:00Z. -/
noncomputable def centuryFix0 : TrkPt :=
  { Lat := 0, Lon := 0, Ele := 0, Time := some (-8520336000 * Second) }

/-- A fix at 2100-01-01T00:00:00Z. -/
noncomputable def centuryFix1 : TrkPt :=
  { Lat := 0, Lon := 0, Ele := 0, Time := some (4102444800 * Second) }

/-- A document of one segment with the fixes of 1700 and 2100. -/
noncomputable def centuryTrack : gpxStruct :=
  { Trk := { Name := "centuries", TrkSeg := [{ TrkPt := [centuryFix0, centuryFix1] }] } }

/-! ## The handoff between the two goroutines

The goroutine of `main` (the producer, lines 103-125) and the goroutine started in line 88
(the consumer, lines 89-101) meet on the unbuffered channels `csvChan` and `endChan`.  A
state records where each of them stands; a step is one communication or one local action
of either goroutine, so that the runs of `Pipeline.Step` are the interleavings of the two.
-/

/-- Where the producer stands. -/
inductive ProducerAt where
  /-- In the loops of lines 103-123; `rest` are the rows that are still to be sent. -/
  | sending (rest : List CSV)
  /-- After `close(csvChan)`, blocked in `<-endChan`. -/
  | waiting
  /-- After `<-endChan`: `main` returns. -/
  | returned

/-- Where the consumer stands. -/
inductive ConsumerAt where
  /-- Blocked in `for csv := range csvChan`. -/
  | receiving
  /-- Holding the received `csv`, before `csvList = append(csvList, csv)`. -/
  | appending (csv : CSV)
  /-- After the `range` loop, before `gocsv.MarshalFile(&csvList, fh)`. -/
  | marshalling
  /-- Blocked in `endChan <- struct{}{}`. -/
  | signalling
  /-- After the send on `endChan`. -/
  | finished

/-- A state of the two goroutines. -/
structure Pipeline where
  /-- Position of the producer. -/
  producer : ProducerAt
  /-- Position of the consumer. -/
  consumer : ConsumerAt
  /-- Whether `csvChan` has been closed. -/
  closed : Bool
  /-- Variable `csvList` of the consumer. -/
  csvList : List CSV
  /-- The lists handed to `gocsv.MarshalFile`, one entry for each call, oldest first. -/
  marshalled : List (List CSV)

/-- The state in which the consumer is started and the producer has `rows` to send. -/
def Pipeline.start (rows : List CSV) : Pipeline :=
  { producer := ProducerAt.sending rows, consumer := ConsumerAt.receiving, closed := false,
    csvList := [], marshalled := [] }

/-- The communication `csvChan <- csv` with the `range` of the consumer. -/
def Pipeline.handoff (s : Pipeline) : Option Pipeline :=
  match s.producer, s.consumer with
  | ProducerAt.sending (csv :: rest), ConsumerAt.receiving =>
    some { s with producer := ProducerAt.sending rest, consumer := ConsumerAt.appending csv }
  | _, _ => none

/-- The statement `csvList = append(csvList, csv)`. -/
def Pipeline.append (s : Pipeline) : Option Pipeline :=
  match s.consumer with
  | ConsumerAt.appending csv =>
    some { s with csvList := s.csvList ++ [csv], consumer := ConsumerAt.receiving }
  | _ => none

/-- The statement `close(csvChan)`, once the loops have sent every row. -/
def Pipeline.close (s : Pipeline) : Option Pipeline :=
  match s.producer with
  | ProducerAt.sending [] => some { s with closed := true, producer := ProducerAt.waiting }
  | _ => none

/-- The end of `range csvChan` on the closed channel. -/
def Pipeline.rangeEnd (s : Pipeline) : Option Pipeline :=
  match s.consumer, s.closed with
  | ConsumerAt.receiving, true => some { s with consumer := ConsumerAt.marshalling }
  | _, _ => none

/-- The call `gocsv.MarshalFile(&csvList, fh)`. -/
def Pipeline.marshal (s : Pipeline) : Option Pipeline :=
  match s.consumer with
  | ConsumerAt.marshalling =>
    some { s with marshalled := s.marshalled ++ [s.csvList], consumer := ConsumerAt.signalling }
  | _ => none

/-- The communication `endChan <- struct{}{}` with `<-endChan`. -/
def Pipeline.signal (s : Pipeline) : Option Pipeline :=
  match s.producer, s.consumer with
  | ProducerAt.waiting, ConsumerAt.signalling =>
    some { s with producer := ProducerAt.returned, consumer := ConsumerAt.finished }
  | _, _ => none

/-- The states one step away from `s`. -/
def Pipeline.next (s : Pipeline) : List Pipeline :=
  [s.handoff, s.append, s.close, s.rangeEnd, s.marshal, s.signal].reduceOption

/-- One step of the two goroutines. -/
def Pipeline.Step (s s' : Pipeline) : Prop :=
  s' ∈ s.next

/-- A state that a run from `s` can be in. -/
def Pipeline.Reaches (s s' : Pipeline) : Prop :=
  Relation.ReflTransGen Pipeline.Step s s'

/-- A bound on the number of steps that are left. -/
def Pipeline.stepsLeft (s : Pipeline) : ℕ :=
  (match s.producer with
    | ProducerAt.sending rest => 3 * rest.length + 3
    | ProducerAt.waiting => 1
    | ProducerAt.returned => 0)
  + (match s.consumer with
    | ConsumerAt.receiving => 4
    | ConsumerAt.appending _ => 5
    | ConsumerAt.marshalling => 3
    | ConsumerAt.signalling => 2
    | ConsumerAt.finished => 0)

/-- The invariant of the runs from `Pipeline.start rows`. -/
def Pipeline.Inv (rows : List CSV) (s : Pipeline) : Prop :=
  match s.producer, s.consumer with
  | ProducerAt.sending rest, ConsumerAt.receiving =>
    s.closed = false ∧ s.csvList ++ rest = rows ∧ s.marshalled = []
  | ProducerAt.sending rest, ConsumerAt.appending csv =>
    s.closed = false ∧ s.csvList ++ csv :: rest = rows ∧ s.marshalled = []
  | ProducerAt.waiting, ConsumerAt.receiving =>
    s.closed = true ∧ s.csvList = rows ∧ s.marshalled = []
  | ProducerAt.waiting, ConsumerAt.appending csv =>
    s.closed = true ∧ s.csvList ++ [csv] = rows ∧ s.marshalled = []
  | ProducerAt.waiting, ConsumerAt.marshalling =>
    s.closed = true ∧ s.csvList = rows ∧ s.marshalled = []
  | ProducerAt.waiting, ConsumerAt.signalling =>
    s.closed = true ∧ s.csvList = rows ∧ s.marshalled = [rows]
  | ProducerAt.returned, ConsumerAt.finished =>
    s.closed = true ∧ s.csvList = rows ∧ s.marshalled = [rows]
  | _, _ => False

/-- The state in which line 88 starts the consumer, or the panic that ends the run before
that line. -/
noncomputable def pipelineOf (gpx : gpxStruct) : Except RuntimePanic Pipeline :=
  match main gpx with
  | Except.ok rows => Except.ok (Pipeline.start rows)
  | Except.error p => Except.error p

/-! ## The float64 evaluation of `haversine`

`haversine` above takes the arithmetic of the source as exact.  What follows is the same
function with the rounding of every float64 operation, and with `math.Sin`, `math.Cos`,
`math.Sqrt` and `math.Asin` as package `math` computes them (the kernels written in Go,
each product and sum rounded on its own, as on amd64 where the compiler fuses none).  A
finite float64 is a rational; overflow to an infinity does not occur for the values of
this section and is not represented.
-/

/-- A float64 value: a finite number, an infinity, or NaN. -/
inductive F64 where
  /-- A finite value. -/
  | finite (q : ℚ)
  /-- An infinity (the sign is not recorded). -/
  | inf
  /-- The value NaN. -/
  | nan

/-- A float64 that is a number `≥ 0`; NaN is not. -/
def F64.IsNonneg : F64 → Prop
  | F64.finite q => 0 ≤ q
  | F64.inf => True
  | F64.nan => False

/-- The float64 sum of two finite values. -/
def fadd (x y : ℚ) : ℚ := roundF64 (x + y)

/-- The float64 difference of two finite values. -/
def fsub (x y : ℚ) : ℚ := roundF64 (x - y)

/-- The float64 product of two finite values. -/
def fmul (x y : ℚ) : ℚ := roundF64 (x * y)

/-- The float64 quotient of two finite values, the divisor not being 0. -/
def fdiv (x y : ℚ) : ℚ := roundF64 (x / y)

/-- The float64 product `x * y`. -/
def F64.mul : F64 → F64 → F64
  | F64.finite x, F64.finite y => F64.finite (fmul x y)
  | F64.finite x, F64.inf => if x = 0 then F64.nan else F64.inf
  | F64.inf, F64.finite y => if y = 0 then F64.nan else F64.inf
  | F64.inf, F64.inf => F64.inf
  | _, _ => F64.nan

/-- The float64 quotient `x / y`. -/
def F64.div : F64 → F64 → F64
  | F64.finite x, F64.finite y =>
    if y = 0 then (if x = 0 then F64.nan else F64.inf) else F64.finite (fdiv x y)
  | F64.finite _, F64.inf => F64.finite 0
  | F64.inf, F64.finite _ => F64.inf
  | _, _ => F64.nan

/-- The parts of package `math` that this development leaves open: the reduction of an
argument `≥ 1<<29` in `math.Sin` and `math.Cos` (`trigReduce`), and the value of
`math.Asin` at an argument in `(0, 1]`. -/
structure MathRest where
  /-- Function `trigReduce`: the octant and the reduced argument. -/
  trigReduce : ℚ → ℕ × ℚ
  /-- The value of `math.Asin` at `x` with `0 < x ≤ 1`. -/
  asinInside : ℚ → ℚ

/-- The constant `math.Pi` as a float64. -/
def Pi64 : ℚ :=
  roundF64 3.14159265358979323846264338327950288419716939937510582097494459

/-- The constant `4 / Pi` of `sin.go` as a float64. -/
def fourOverPi64 : ℚ :=
  roundF64 (4 / 3.14159265358979323846264338327950288419716939937510582097494459)

/-- The constant `PI4A` of `sin.go`. -/
def PI4A : ℚ := roundF64 7.85398125648498535156e-1

/-- The constant `PI4B` of `sin.go`. -/
def PI4B : ℚ := roundF64 3.77489470793079817668e-8

/-- The constant `PI4C` of `sin.go`. -/
def PI4C : ℚ := roundF64 2.69515142907905952645e-15

/-- The constant `reduceThreshold = 1 << 29`. -/
def reduceThreshold : ℚ := 536870912

/-- The table `_sin` of `sin.go`. -/
def _sin : ℕ → ℚ
  | 0 => roundF64 1.58962301576546568060e-10
  | 1 => roundF64 (-2.50507477628578072866e-8)
  | 2 => roundF64 2.75573136213857245213e-6
  | 3 => roundF64 (-1.98412698295895385996e-4)
  | 4 => roundF64 8.33333333332211858878e-3
  | _ => roundF64 (-1.66666666666666307295e-1)

/-- The table `_cos` of `sin.go`. -/
def _cos : ℕ → ℚ
  | 0 => roundF64 (-1.13585365213876817300e-11)
  | 1 => roundF64 2.08757008419747316778e-9
  | 2 => roundF64 (-2.75573141792967388112e-7)
  | 3 => roundF64 2.48015872888517045348e-5
  | 4 => roundF64 (-1.38888888888730564116e-3)
  | _ => roundF64 4.16666666666665929218e-2

/-- The expression
`((((((_sin[0]*zz)+_sin[1])*zz+_sin[2])*zz+_sin[3])*zz+_sin[4])*zz+_sin[5])`. -/
def sinPoly (zz : ℚ) : ℚ :=
  fadd (fmul (fadd (fmul (fadd (fmul (fadd (fmul (fadd (fmul (_sin 0) zz) (_sin 1)) zz)
    (_sin 2)) zz) (_sin 3)) zz) (_sin 4)) zz) (_sin 5)

/-- The expression
`((((((_cos[0]*zz)+_cos[1])*zz+_cos[2])*zz+_cos[3])*zz+_cos[4])*zz+_cos[5])`. -/
def cosPoly (zz : ℚ) : ℚ :=
  fadd (fmul (fadd (fmul (fadd (fmul (fadd (fmul (fadd (fmul (_cos 0) zz) (_cos 1)) zz)
    (_cos 2)) zz) (_cos 3)) zz) (_cos 4)) zz) (_cos 5)

/-- The branch `y = z + z*zz*(...)` of `sin` and `cos`, with `zz := z * z`. -/
def sinKernel (z : ℚ) : ℚ :=
  fadd z (fmul (fmul z (fmul z z)) (sinPoly (fmul z z)))

/-- The branch `y = 1.0 - 0.5*zz + zz*zz*(...)` of `sin` and `cos`, with `zz := z * z`. -/
def cosKernel (z : ℚ) : ℚ :=
  fadd (fsub 1 (fmul 0.5 (fmul z z))) (fmul (fmul (fmul z z) (fmul z z)) (cosPoly (fmul z z)))

/-- The statement `z = ((x - y*PI4A) - y*PI4B) - y*PI4C`. -/
def codyWaite (x y : ℚ) : ℚ :=
  fsub (fsub (fsub x (fmul y PI4A)) (fmul y PI4B)) (fmul y PI4C)

/-- The argument reduction of `sin` and `cos` for `x ≥ 0`: the octant `j` (after
`j &= 7`) and the reduced argument `z`.  Below `reduceThreshold` it is
`j = uint64(x * (4 / Pi)); y = float64(j); if j&1 == 1 { j++; y++ }; j &= 7;
z = ((x - y*PI4A) - y*PI4B) - y*PI4C`. -/
def reduce (K : MathRest) (x : ℚ) : ℕ × ℚ :=
  if reduceThreshold ≤ x then K.trigReduce x
  else if (toInt (fmul x fourOverPi64)).toNat % 2 = 1 then
    (((toInt (fmul x fourOverPi64)).toNat + 1) % 8,
      codyWaite x (fadd (roundF64 ((toInt (fmul x fourOverPi64)).toNat : ℚ)) 1))
  else
    ((toInt (fmul x fourOverPi64)).toNat % 8,
      codyWaite x (roundF64 ((toInt (fmul x fourOverPi64)).toNat : ℚ)))

/-- Function `math.Sin` on a finite argument. -/
def Sin64 (K : MathRest) (x : ℚ) : ℚ :=
  if x = 0 then x
  else
    let sign : Bool := decide (x < 0)
    let jz := reduce K (if x < 0 then -x else x)
    let sign := if 3 < jz.1 then !sign else sign
    let j := if 3 < jz.1 then jz.1 - 4 else jz.1
    let y := if j = 1 ∨ j = 2 then cosKernel jz.2 else sinKernel jz.2
    if sign then -y else y

/-- Function `math.Cos` on a finite argument. -/
def Cos64 (K : MathRest) (x : ℚ) : ℚ :=
  let jz := reduce K |x|
  let sign : Bool := decide (3 < jz.1)
  let j := if 3 < jz.1 then jz.1 - 4 else jz.1
  let sign := if 1 < j then !sign else sign
  let y := if j = 1 ∨ j = 2 then sinKernel jz.2 else cosKernel jz.2
  if sign then -y else y

/-- The float64 nearest to the square root of `x > 0`: with `2^e ≤ √x < 2^(e+1)` it is
the multiple of `2^(e-52)` nearest to `√x` (a tie cannot occur for a float64 `x`). -/
def sqrtRound (x : ℚ) : ℚ :=
  let q : ℚ := 2 ^ (Int.log 2 x / 2 - 52)
  let n : ℕ := Nat.sqrt ⌊x / (q * q)⌋₊
  if x / (q * q) < ((n : ℚ) + 1 / 2) ^ 2 then (n : ℚ) * q else ((n : ℚ) + 1) * q

/-- Function `math.Sqrt` on a finite argument: NaN below 0. -/
def Sqrt64 (x : ℚ) : F64 :=
  if x < 0 then F64.nan else if x = 0 then F64.finite 0 else F64.finite (sqrtRound x)

/-- Function `math.Asin` on a finite argument: `x` itself at 0, NaN for `|x| > 1`. -/
def Asin64 (K : MathRest) (x : ℚ) : F64 :=
  if x = 0 then F64.finite x
  else if 1 < |x| then F64.nan
  else F64.finite (if x < 0 then -K.asinInside (-x) else K.asinInside x)

/-- Function `math.Asin` on a float64. -/
def F64.asin (K : MathRest) : F64 → F64
  | F64.finite x => Asin64 K x
  | _ => F64.nan

/-- The float64 value `haversine` passes to `math.Sqrt`. -/
def radicand64 (K : MathRest) (lat1 lon1 lat2 lon2 : ℚ) : ℚ :=
  let rlat1 := fdiv (fmul lat1 Pi64) 180.0
  let rlon1 := fdiv (fmul lon1 Pi64) 180.0
  let rlat2 := fdiv (fmul lat2 Pi64) 180.0
  let rlon2 := fdiv (fmul lon2 Pi64) 180.0
  let phi := Sin64 K (fdiv (fsub rlat2 rlat1) 2.0)
  let lambda := Sin64 K (fdiv (fsub rlon2 rlon1) 2.0)
  fadd (fmul phi phi) (fmul (fmul (fmul (Cos64 K rlat1) (Cos64 K rlat2)) lambda) lambda)

/-- Function `haversine` of `main.go` in float64 arithmetic, on finite arguments. -/
def haversine64 (K : MathRest) (lat1 lon1 lat2 lon2 : ℚ) : F64 :=
  let rlat1 := fdiv (fmul lat1 Pi64) 180.0
  let rlon1 := fdiv (fmul lon1 Pi64) 180.0
  let rlat2 := fdiv (fmul lat2 Pi64) 180.0
  let rlon2 := fdiv (fmul lon2 Pi64) 180.0
  let R : ℚ := roundF64 (6378.137 * 1000.0)
  let phi := Sin64 K (fdiv (fsub rlat2 rlat1) 2.0)
  let lambda := Sin64 K (fdiv (fsub rlon2 rlon1) 2.0)
  F64.mul (F64.mul
    (F64.asin K (Sqrt64 (fadd (fmul phi phi)
      (fmul (fmul (fmul (Cos64 K rlat1) (Cos64 K rlat2)) lambda) lambda))))
    (F64.finite 2)) (F64.finite R)

/-- The float64 value of the field `Speed` of the rows of a pair (line 117):
`d / tdiff.Hours() / 10.` with `d := haversine(pt.Lat, pt.Lon, last.Lat, last.Lon)`. -/
def Speed64 (K : MathRest) (ptLat ptLon lastLat lastLon : ℚ) (tdiff : Duration) : F64 :=
  F64.div (F64.div (haversine64 K ptLat ptLon lastLat lastLon)
    (F64.finite (Duration.Hours tdiff))) (F64.finite 10)

/-! ## A pair of antipodal fixes -/

/-- The fix `(-41.214, 180)` at 2023-01-01T00:00:00Z, the coordinates being the float64
nearest to the decimal texts. -/
noncomputable def antipodalFix0 : TrkPt :=
  { Lat := ((roundF64 (-41.214) : ℚ) : ℝ), Lon := ((180 : ℚ) : ℝ), Ele := 0,
    Time := some 1672531200000000000 }

/-- The fix `(41.214, 0)` at 2023-01-01T00:00:03Z. -/
noncomputable def antipodalFix1 : TrkPt :=
  { Lat := ((roundF64 41.214 : ℚ) : ℝ), Lon := ((0 : ℚ) : ℝ), Ele := 0,
    Time := some 1672531203000000000 }

/-! ## Rounding lemmas -/

theorem roundHalfEven_sub_le (x : ℚ) : |(roundHalfEven x : ℚ) - x| ≤ 1 / 2 := by
  have h0 : (⌊x⌋ : ℚ) ≤ x := Int.floor_le x
  have h1 : x < ⌊x⌋ + 1 := Int.lt_floor_add_one x
  unfold roundHalfEven
  rw [abs_le]
  split_ifs with a b c
  · constructor <;> linarith
  · push_cast; constructor <;> linarith
  · constructor <;> linarith
  · push_cast; constructor <;> linarith

theorem roundHalfEven_intCast (z : ℤ) : roundHalfEven (z : ℚ) = z := by
  unfold roundHalfEven
  simp

theorem roundHalfEven_nonneg {x : ℚ} (hx : 0 ≤ x) : 0 ≤ roundHalfEven x := by
  have h0 : 0 ≤ ⌊x⌋ := Int.floor_nonneg.mpr hx
  unfold roundHalfEven
  split_ifs <;> omega

theorem roundF64_abs_sub_le {x : ℚ} (hx : x ≠ 0) :
    |roundF64 x - x| ≤ 2 ^ ulpExp x / 2 := by
  have hq : (0 : ℚ) < 2 ^ ulpExp x := zpow_pos (by norm_num) _
  have h := roundHalfEven_sub_le (x / 2 ^ ulpExp x)
  unfold roundF64
  rw [if_neg hx]
  have e : (roundHalfEven (x / 2 ^ ulpExp x) : ℚ) * 2 ^ ulpExp x - x
      = ((roundHalfEven (x / 2 ^ ulpExp x) : ℚ) - x / 2 ^ ulpExp x) * 2 ^ ulpExp x := by
    field_simp
  rw [e, abs_mul, abs_of_pos hq]
  calc _ ≤ 1 / 2 * 2 ^ ulpExp x := mul_le_mul_of_nonneg_right h hq.le
    _ = _ := by ring

theorem roundF64_nonneg {x : ℚ} (hx : 0 ≤ x) : 0 ≤ roundF64 x := by
  unfold roundF64
  split_ifs with h
  · exact le_refl _
  · have hq : (0 : ℚ) < 2 ^ ulpExp x := zpow_pos (by norm_num) _
    have := roundHalfEven_nonneg (div_nonneg hx hq.le)
    have h2 : (0 : ℚ) ≤ roundHalfEven (x / 2 ^ ulpExp x) := by exact_mod_cast this
    exact mul_nonneg h2 hq.le

/-- upper bound on the grid exponent. -/
theorem ulpExp_le {x : ℚ} (hx : x ≠ 0) {e : ℤ} (he : -1022 ≤ e) (h : |x| < 2 ^ (e + 1)) :
    ulpExp x ≤ e - 52 := by
  have hlog : Int.log 2 |x| < e + 1 := by
    have := (Int.lt_zpow_iff_log_lt (b := 2) (by norm_num) (abs_pos.mpr hx) (x := e + 1)).mp
      (by exact_mod_cast h)
    exact this
  unfold ulpExp
  have : max (Int.log 2 |x|) (-1022) ≤ e := max_le (by omega) (by omega)
  omega

theorem roundF64_intCast {n : ℤ} (h : |n| < 2 ^ 53) : roundF64 (n : ℚ) = n := by
  by_cases hn : n = 0
  · subst hn; simp [roundF64]
  have hx : (n : ℚ) ≠ 0 := by exact_mod_cast hn
  have hle : ulpExp (n : ℚ) ≤ 0 := by
    have : |(n : ℚ)| < 2 ^ ((52 : ℤ) + 1) := by
      have h2 : ((|n| : ℤ) : ℚ) < ((2 ^ 53 : ℤ) : ℚ) := by exact_mod_cast h
      rw [Int.cast_abs] at h2
      calc |(n : ℚ)| < ((2 ^ 53 : ℤ) : ℚ) := h2
        _ = 2 ^ ((52 : ℤ) + 1) := by norm_num
    have := ulpExp_le hx (by norm_num) this
    omega
  obtain ⟨k, hk⟩ : ∃ k : ℕ, ulpExp (n : ℚ) = -(k : ℤ) := ⟨(-ulpExp (n : ℚ)).toNat, by omega⟩
  unfold roundF64
  rw [if_neg hx, hk]
  have e : (n : ℚ) / 2 ^ (-(k : ℤ)) = ((n * 2 ^ k : ℤ) : ℚ) := by
    rw [zpow_neg, zpow_natCast]; push_cast; field_simp
  rw [e, roundHalfEven_intCast]
  rw [zpow_neg, zpow_natCast]; push_cast; field_simp


/-- the rounded quotient `float64(nsec)/1e9` of a remainder below one second. -/
theorem roundF64_frac_bounds {r : ℤ} (h0 : 0 ≤ r) (h1 : r < 1000000000) :
    0 ≤ roundF64 ((r : ℚ) / 1000000000) ∧
      roundF64 ((r : ℚ) / 1000000000) ≤ 999999999 / 1000000000 + 2 ^ (-54 : ℤ) := by
  have hr0 : (0 : ℚ) ≤ r := by exact_mod_cast h0
  have hr1 : (r : ℚ) ≤ 999999999 := by
    have : r ≤ 999999999 := by omega
    exact_mod_cast this
  refine ⟨roundF64_nonneg (div_nonneg hr0 (by norm_num)), ?_⟩
  by_cases hz : (r : ℚ) / 1000000000 = 0
  · rw [hz]; simp only [roundF64, if_true]; norm_num
  · have hy1 : (r : ℚ) / 1000000000 ≤ 999999999 / 1000000000 :=
      div_le_div_of_nonneg_right hr1 (by norm_num)
    have habs : |(r : ℚ) / 1000000000| < 2 ^ ((-1 : ℤ) + 1) := by
      rw [abs_of_nonneg (div_nonneg hr0 (by norm_num))]
      calc (r : ℚ) / 1000000000 ≤ 999999999 / 1000000000 := hy1
        _ < 2 ^ ((-1 : ℤ) + 1) := by norm_num
    have hu := ulpExp_le hz (by norm_num) habs
    have hq : (2 : ℚ) ^ ulpExp ((r : ℚ) / 1000000000) ≤ 2 ^ (-53 : ℤ) :=
      zpow_le_zpow_right₀ (by norm_num) (by omega)
    have herr := roundF64_abs_sub_le hz
    have := (abs_le.mp herr).2
    have e54 : (2 : ℚ) ^ (-54 : ℤ) = 2 ^ (-53 : ℤ) / 2 := by norm_num
    rw [e54]
    linarith

theorem Seconds_bounds {d : Duration} (h0 : 0 ≤ d) (h1 : d < 16777216 * Second) :
    ((d / Second : ℤ) : ℚ) ≤ Duration.Seconds d ∧ Duration.Seconds d < ((d / Second : ℤ) : ℚ) + 1 := by
  have hS : Second = 1000000000 := rfl
  rw [hS] at h1 ⊢
  set s : ℤ := d / 1000000000 with hs
  set r : ℤ := d % 1000000000 with hr
  have hs0 : 0 ≤ s := Int.ediv_nonneg h0 (by norm_num)
  have hs1 : s < 16777216 := by
    rw [hs]; exact Int.ediv_lt_of_lt_mul (by norm_num) h1
  have hr0 : 0 ≤ r := Int.emod_nonneg _ (by norm_num)
  have hr1 : r < 1000000000 := Int.emod_lt_of_pos _ (by norm_num)
  have e1 : Int.tdiv d Second = s := by
    rw [hS, Int.tdiv_eq_ediv h0 (by norm_num)]
  have e2 : Int.tmod d Second = r := by
    rw [hS, Int.tmod_eq_emod h0 (by norm_num)]
  have c1 : roundF64 ((s : ℤ) : ℚ) = s := roundF64_intCast (by rw [abs_of_nonneg hs0]; omega)
  have c2 : roundF64 ((r : ℤ) : ℚ) = r := roundF64_intCast (by rw [abs_of_nonneg hr0]; omega)
  obtain ⟨f0, f1⟩ := roundF64_frac_bounds hr0 hr1
  unfold Duration.Seconds
  rw [e1, e2, c1, c2]
  set f : ℚ := roundF64 ((r : ℚ) / 1000000000) with hf
  set x : ℚ := (s : ℚ) + f with hx
  have hsq0 : (0 : ℚ) ≤ s := by exact_mod_cast hs0
  have hsq1 : (s : ℚ) + 1 ≤ 16777216 := by
    have : s + 1 ≤ 16777216 := by omega
    exact_mod_cast this
  have hx0 : 0 ≤ x := by rw [hx]; linarith
  have h54 : (2 : ℚ) ^ (-54 : ℤ) < 1 / 1000000000 - 2 ^ (-30 : ℤ) := by norm_num
  have key : (s : ℚ) ≤ roundF64 x ∧ roundF64 x < s + 1 := by
    by_cases hz : x = 0
    · rw [hz]
      have : (s : ℚ) = 0 := by rw [hx] at hz; linarith
      simp [roundF64, this]
    · have habs : |x| < 2 ^ ((23 : ℤ) + 1) := by
        rw [abs_of_nonneg hx0]
        have : x < 16777216 := by rw [hx]; linarith
        calc x < 16777216 := this
          _ = 2 ^ ((23 : ℤ) + 1) := by norm_num
      have hu := ulpExp_le hz (by norm_num) habs
      obtain ⟨k, hk⟩ : ∃ k : ℕ, ulpExp x = -(k : ℤ) := ⟨(-ulpExp x).toNat, by omega⟩
      have hq : (2 : ℚ) ^ ulpExp x ≤ 2 ^ (-29 : ℤ) :=
        zpow_le_zpow_right₀ (by norm_num) (by omega)
      have hqpos : (0 : ℚ) < 2 ^ ulpExp x := zpow_pos (by norm_num) _
      have herr := abs_le.mp (roundF64_abs_sub_le hz)
      have e30 : (2 : ℚ) ^ (-30 : ℤ) = 2 ^ (-29 : ℤ) / 2 := by norm_num
      constructor
      · -- the result is a multiple of the spacing, and so is `s`
        have hgrid : roundF64 x = (roundHalfEven (x / 2 ^ ulpExp x) : ℚ) * 2 ^ ulpExp x := by
          simp [roundF64, hz]
        have hsgrid : (s : ℚ) = ((s * 2 ^ k : ℤ) : ℚ) * 2 ^ ulpExp x := by
          rw [hk, zpow_neg, zpow_natCast]; push_cast; field_simp
        have hlt : ((s * 2 ^ k : ℤ) : ℚ) - 1 < (roundHalfEven (x / 2 ^ ulpExp x) : ℚ) := by
          have h3 : (s : ℚ) - 2 ^ ulpExp x < roundF64 x := by
            have : (s : ℚ) ≤ x := by rw [hx]; linarith
            linarith [herr.1]
          rw [hgrid] at h3
          nth_rewrite 1 [hsgrid] at h3
          have h4 : (((s * 2 ^ k : ℤ) : ℚ) - 1) * 2 ^ ulpExp x
              < (roundHalfEven (x / 2 ^ ulpExp x) : ℚ) * 2 ^ ulpExp x := by linarith
          exact lt_of_mul_lt_mul_right h4 hqpos.le
        have hle : s * 2 ^ k ≤ roundHalfEven (x / 2 ^ ulpExp x) := by
          have : (s * 2 ^ k : ℤ) - 1 < roundHalfEven (x / 2 ^ ulpExp x) := by exact_mod_cast hlt
          omega
        rw [hgrid]
        nth_rewrite 1 [hsgrid]
        exact mul_le_mul_of_nonneg_right (by exact_mod_cast hle) hqpos.le
      · have h5 : x ≤ s + 999999999 / 1000000000 + 2 ^ (-54 : ℤ) := by rw [hx]; linarith
        have h6 := herr.2
        rw [e30] at h54
        generalize (2 : ℚ) ^ (-54 : ℤ) = a at h54 h5
        generalize (2 : ℚ) ^ (-29 : ℤ) = b at h54 hq
        generalize (2 : ℚ) ^ ulpExp x = c at hq h6
        generalize roundF64 x = y at h6 ⊢
        linarith
  exact key

theorem Seconds_floor {d : Duration} (h0 : 0 ≤ d) (h1 : d < 16777216 * Second) :
    ⌊Duration.Seconds d⌋ = d / Second :=
  Int.floor_eq_iff.mpr (Seconds_bounds h0 h1)

theorem Seconds_toInt {d : Duration} (h0 : 0 ≤ d) (h1 : d < 16777216 * Second) :
    toInt (Duration.Seconds d) = d / Second := by
  have hb := Seconds_bounds h0 h1
  have hs : (0 : ℚ) ≤ ((d / Second : ℤ) : ℚ) := by
    have : 0 ≤ d / Second := Int.ediv_nonneg h0 (by decide)
    exact_mod_cast this
  unfold toInt
  rw [if_pos (le_trans hs hb.1)]
  exact Seconds_floor h0 h1

theorem toInt_eq_floor_of_nonneg {x : ℚ} (h : 0 ≤ x) : toInt x = ⌊x⌋ := by
  unfold toInt; rw [if_pos h]

theorem toInt_toNat_eq_floor_toNat (x : ℚ) : (toInt x).toNat = ⌊x⌋.toNat := by
  unfold toInt
  split_ifs with h
  · rfl
  · have hx : x < 0 := not_le.mp h
    have h1 : ⌈x⌉ ≤ 0 := Int.ceil_le.mpr (by exact_mod_cast hx.le)
    have h2 : ⌊x⌋ ≤ 0 := le_trans (Int.floor_le_ceil x) h1
    rw [Int.toNat_of_nonpos h1, Int.toNat_of_nonpos h2]

theorem Sub_eq {t u : Time} (h0 : minDuration ≤ t - u) (h1 : t - u ≤ maxDuration) :
    Time.Sub t u = t - u := by
  unfold Time.Sub
  rw [if_neg (not_lt.mpr h1), if_neg (not_lt.mpr h0)]

theorem ulpExp_eq {x : ℚ} {e : ℤ} (he : -1022 ≤ e) (h1 : 2 ^ e ≤ |x|) (h2 : |x| < 2 ^ (e + 1)) :
    ulpExp x = e - 52 := by
  have hpos : 0 < |x| := lt_of_lt_of_le (zpow_pos (by norm_num) e) h1
  have hlo : e ≤ Int.log 2 |x| :=
    (Int.zpow_le_iff_le_log (b := 2) (by norm_num) hpos).mp (by exact_mod_cast h1)
  have hhi : Int.log 2 |x| < e + 1 :=
    (Int.lt_zpow_iff_log_lt (b := 2) (by norm_num) hpos).mp (by exact_mod_cast h2)
  unfold ulpExp
  rw [max_eq_left (by omega)]
  omega

theorem roundHalfEven_eq_of_near {x : ℚ} {z : ℤ} (h : |x - z| < 1 / 2) : roundHalfEven x = z := by
  have h1 := abs_le.mp (roundHalfEven_sub_le x)
  have h2 := abs_lt.mp h
  have h3 : ((roundHalfEven x - z : ℤ) : ℚ) < 1 := by push_cast; linarith [h1.2, h2.1]
  have h4 : (-1 : ℚ) < ((roundHalfEven x - z : ℤ) : ℚ) := by push_cast; linarith [h1.1, h2.2]
  have h5 : roundHalfEven x - z < 1 := by exact_mod_cast h3
  have h6 : -1 < roundHalfEven x - z := by exact_mod_cast h4
  omega

theorem roundF64_eq_of_near {x : ℚ} {e m : ℤ} (he : -1022 ≤ e) (h1 : 2 ^ e ≤ |x|)
    (h2 : |x| < 2 ^ (e + 1)) (h : |x / 2 ^ (e - 52) - m| < 1 / 2) :
    roundF64 x = m * 2 ^ (e - 52) := by
  have hpos : 0 < |x| := lt_of_lt_of_le (zpow_pos (by norm_num) e) h1
  have hx : x ≠ 0 := abs_pos.mp hpos
  unfold roundF64
  rw [if_neg hx, ulpExp_eq he h1 h2, roundHalfEven_eq_of_near h]

theorem Seconds_long_gap : Duration.Seconds 16777216999999999 = 16777217 := by
  have e1 : Int.tdiv 16777216999999999 Second = 16777216 := by decide
  have e2 : Int.tmod 16777216999999999 Second = 999999999 := by decide
  have c1 : roundF64 ((16777216 : ℤ) : ℚ) = (16777216 : ℤ) := roundF64_intCast (by decide)
  have c2 : roundF64 ((999999999 : ℤ) : ℚ) = (999999999 : ℤ) := roundF64_intCast (by decide)
  have c3 : roundF64 ((999999999 : ℚ) / 1000000000)
      = (9007199245733793 : ℤ) * 2 ^ ((-1 : ℤ) - 52) :=
    roundF64_eq_of_near (by norm_num) (by rw [abs_of_nonneg (by norm_num)]; norm_num)
      (by rw [abs_of_nonneg (by norm_num)]; norm_num)
      (by rw [abs_lt]; constructor <;> norm_num)
  have c4 : roundF64 ((16777216 : ℚ) + (9007199245733793 : ℤ) * 2 ^ ((-1 : ℤ) - 52))
      = (4503599895805952 : ℤ) * 2 ^ ((24 : ℤ) - 52) :=
    roundF64_eq_of_near (by norm_num) (by rw [abs_of_nonneg (by norm_num)]; norm_num)
      (by rw [abs_of_nonneg (by norm_num)]; norm_num)
      (by rw [abs_lt]; constructor <;> norm_num)
  unfold Duration.Seconds
  rw [e1, e2, c1, c2]
  push_cast
  rw [c3, c4]
  norm_num

theorem roundHalfEven_nonpos {x : ℚ} (hx : x ≤ 0) : roundHalfEven x ≤ 0 := by
  have h0 : (⌊x⌋ : ℚ) ≤ x := Int.floor_le x
  have h1 : ⌊x⌋ ≤ 0 := by
    have : (⌊x⌋ : ℚ) ≤ 0 := le_trans h0 hx
    exact_mod_cast this
  unfold roundHalfEven
  split_ifs with a b c
  · exact h1
  · have : (⌊x⌋ : ℚ) < 0 := by linarith
    have : ⌊x⌋ < 0 := by exact_mod_cast this
    omega
  · exact h1
  · have hlt : (⌊x⌋ : ℚ) < 0 := by linarith
    have : ⌊x⌋ < 0 := by exact_mod_cast hlt
    omega

theorem roundF64_nonpos {x : ℚ} (hx : x ≤ 0) : roundF64 x ≤ 0 := by
  unfold roundF64
  split_ifs with h
  · exact le_refl _
  · have hq : (0 : ℚ) < 2 ^ ulpExp x := zpow_pos (by norm_num) _
    have := roundHalfEven_nonpos (div_nonpos_of_nonpos_of_nonneg hx hq.le)
    have h2 : (roundHalfEven (x / 2 ^ ulpExp x) : ℚ) ≤ 0 := by exact_mod_cast this
    exact mul_nonpos_of_nonpos_of_nonneg h2 hq.le

/-- rounding does not go below a power of two that the argument reaches. -/
theorem roundF64_ge_pow {x : ℚ} {e : ℤ} (he : -1022 ≤ e) (h : 2 ^ e ≤ x) :
    2 ^ e ≤ roundF64 x := by
  have hpe : (0 : ℚ) < 2 ^ e := zpow_pos (by norm_num) e
  have hx0 : 0 < x := lt_of_lt_of_le hpe h
  have hx : x ≠ 0 := hx0.ne'
  have habs : |x| = x := abs_of_pos hx0
  have hlo : e ≤ Int.log 2 |x| := by
    rw [habs]
    exact (Int.zpow_le_iff_le_log (b := 2) (by norm_num) hx0).mp (by exact_mod_cast h)
  have hE : (2 : ℚ) ^ Int.log 2 |x| ≤ x := by
    have := Int.zpow_log_le_self (b := 2) (r := x) (by norm_num) hx0
    rw [habs]; exact_mod_cast this
  have hu : ulpExp x = Int.log 2 |x| - 52 := by
    unfold ulpExp; rw [max_eq_left (by omega)]
  set E := Int.log 2 |x| with hEdef
  have hq : (0 : ℚ) < 2 ^ (E - 52) := zpow_pos (by norm_num) _
  have hsplit : (2 : ℚ) ^ E = 2 ^ (52 : ℕ) * 2 ^ (E - 52) := by
    rw [← zpow_natCast, ← zpow_add₀ (by norm_num : (2 : ℚ) ≠ 0)]; congr 1; push_cast; ring
  have hy : (2 : ℚ) ^ (52 : ℕ) ≤ x / 2 ^ (E - 52) := by
    rw [le_div_iff₀ hq, ← hsplit]; exact hE
  have hm := abs_le.mp (roundHalfEven_sub_le (x / 2 ^ (E - 52)))
  have hm1 : ((2 ^ 52 - 1 : ℤ) : ℚ) < (roundHalfEven (x / 2 ^ (E - 52)) : ℚ) := by
    push_cast; linarith [hm.1]
  have hm2 : (2 ^ 52 - 1 : ℤ) < roundHalfEven (x / 2 ^ (E - 52)) := by exact_mod_cast hm1
  have hm3 : (2 ^ 52 : ℤ) ≤ roundHalfEven (x / 2 ^ (E - 52)) := by omega
  have hm4 : (2 : ℚ) ^ (52 : ℕ) ≤ (roundHalfEven (x / 2 ^ (E - 52)) : ℚ) := by exact_mod_cast hm3
  unfold roundF64
  rw [if_neg hx, hu]
  calc (2 : ℚ) ^ e ≤ 2 ^ E := zpow_le_zpow_right₀ (by norm_num) hlo
    _ = 2 ^ (52 : ℕ) * 2 ^ (E - 52) := hsplit
    _ ≤ (roundHalfEven (x / 2 ^ (E - 52)) : ℚ) * 2 ^ (E - 52) :=
        mul_le_mul_of_nonneg_right hm4 hq.le

theorem tdiv_tmod_nonpos {d b : ℤ} (hd : d ≤ 0) (hb : 0 ≤ b) :
    Int.tdiv d b ≤ 0 ∧ Int.tmod d b ≤ 0 := by
  obtain ⟨n, hn, rfl⟩ : ∃ n : ℤ, 0 ≤ n ∧ d = -n := ⟨-d, by omega, by omega⟩
  have h1 : 0 ≤ Int.tdiv n b := Int.tdiv_nonneg hn hb
  have h2 : 0 ≤ Int.tmod n b := Int.tmod_nonneg b hn
  have h3 := Int.tmod_add_tdiv n b
  have h4 := Int.tmod_add_tdiv (-n) b
  rw [Int.neg_tdiv] at h4 ⊢
  constructor
  · omega
  · have : Int.tmod (-n) b = -(Int.tmod n b) := by
      have e : b * -(n.tdiv b) = -(b * n.tdiv b) := by ring
      rw [e] at h4
      omega
    omega

theorem Seconds_nonpos {d : Duration} (h : d ≤ 0) : Duration.Seconds d ≤ 0 := by
  obtain ⟨h1, h2⟩ := tdiv_tmod_nonpos h (by decide : (0 : ℤ) ≤ Second)
  have q1 : ((Int.tdiv d Second : ℤ) : ℚ) ≤ 0 := by exact_mod_cast h1
  have q2 : ((Int.tmod d Second : ℤ) : ℚ) ≤ 0 := by exact_mod_cast h2
  unfold Duration.Seconds
  apply roundF64_nonpos
  have a := roundF64_nonpos q1
  have b := roundF64_nonpos (div_nonpos_of_nonpos_of_nonneg (roundF64_nonpos q2)
    (by norm_num : (0 : ℚ) ≤ 1000000000))
  linarith

theorem Hours_pos {d : Duration} (h : 0 < d) : 0 < Duration.Hours d := by
  have hH : Hour = 3600000000000 := rfl
  have hq0 : 0 ≤ Int.tdiv d Hour := Int.tdiv_nonneg h.le (by decide)
  have hr0 : 0 ≤ Int.tmod d Hour := Int.tmod_nonneg _ h.le
  have hsum := Int.tmod_add_tdiv d Hour
  have a0 : (0 : ℚ) ≤ roundF64 ((Int.tdiv d Hour : ℤ) : ℚ) :=
    roundF64_nonneg (by exact_mod_cast hq0)
  have b0 : (0 : ℚ) ≤ roundF64 (roundF64 ((Int.tmod d Hour : ℤ) : ℚ) / 3600000000000) :=
    roundF64_nonneg (div_nonneg (roundF64_nonneg (by exact_mod_cast hr0)) (by norm_num))
  have hlow : (2 : ℚ) ^ (-42 : ℤ) ≤ roundF64 ((Int.tdiv d Hour : ℤ) : ℚ)
      + roundF64 (roundF64 ((Int.tmod d Hour : ℤ) : ℚ) / 3600000000000) := by
    by_cases hq : 1 ≤ Int.tdiv d Hour
    · have h1 : (2 : ℚ) ^ (0 : ℤ) ≤ ((Int.tdiv d Hour : ℤ) : ℚ) := by
        have : (1 : ℚ) ≤ ((Int.tdiv d Hour : ℤ) : ℚ) := by exact_mod_cast hq
        simpa using this
      have h2 := roundF64_ge_pow (by norm_num) h1
      have h3 : (2 : ℚ) ^ (-42 : ℤ) ≤ 2 ^ (0 : ℤ) := by norm_num
      linarith
    · have hq1 : Int.tdiv d Hour = 0 := by omega
      have hr1 : 1 ≤ Int.tmod d Hour := by
        have hd : (0 : ℤ) < d := h
        rw [hq1, mul_zero, add_zero] at hsum
        rw [hsum]; omega
      have h1 : (2 : ℚ) ^ (0 : ℤ) ≤ ((Int.tmod d Hour : ℤ) : ℚ) := by
        have : (1 : ℚ) ≤ ((Int.tmod d Hour : ℤ) : ℚ) := by exact_mod_cast hr1
        simpa using this
      have h2 := roundF64_ge_pow (by norm_num) h1
      have h3 : (2 : ℚ) ^ (-42 : ℤ)
          ≤ roundF64 ((Int.tmod d Hour : ℤ) : ℚ) / 3600000000000 := by
        rw [le_div_iff₀ (by norm_num)]
        have : (2 : ℚ) ^ (-42 : ℤ) * 3600000000000 ≤ 2 ^ (0 : ℤ) := by norm_num
        linarith
      have h4 := roundF64_ge_pow (by norm_num) h3
      linarith
  unfold Duration.Hours
  exact lt_of_lt_of_le (zpow_pos (by norm_num) _) (roundF64_ge_pow (by norm_num) hlow)

theorem roundF64_zero : roundF64 0 = 0 := by
  simp [roundF64]

/-- a whole number of seconds is reported exactly. -/
theorem Seconds_whole {s : ℤ} (h : |s| < 2 ^ 53) : Duration.Seconds (s * Second) = s := by
  have e1 : Int.tdiv (s * Second) Second = s := Int.mul_tdiv_cancel s (by decide)
  have e2 : Int.tmod (s * Second) Second = 0 := Int.mul_tmod_left s Second
  unfold Duration.Seconds
  rw [e1, e2, roundF64_intCast h]
  simp [roundF64_zero, roundF64_intCast h]

/-- a pair for which the inner loop runs at all has a positive `tdiff.Hours()`. -/
theorem Hours_pos_of_count_pos {d : Duration}
    (h : 0 < (toInt (Duration.Seconds d)).toNat) : 0 < Duration.Hours d := by
  apply Hours_pos
  by_contra hd
  have hs := Seconds_nonpos (not_lt.mp hd)
  rw [toInt_toNat_eq_floor_toNat] at h
  have hf : ⌊Duration.Seconds d⌋ ≤ 0 := by
    have : (⌊Duration.Seconds d⌋ : ℚ) ≤ 0 := le_trans (Int.floor_le _) hs
    exact_mod_cast this
  rw [Int.toNat_of_nonpos hf] at h
  exact lt_irrefl _ h

/-! ## Lemmas on the loops -/

theorem length_innerLoop (last pt : TrkPt) (t : Time) (tdiff : Duration) (d : ℝ) :
    (innerLoop last pt t tdiff d).length = (toInt (Duration.Seconds tdiff)).toNat := by
  simp [innerLoop]

theorem length_pairSamples (last : TrkPt) (lastTime : Time) (pt : TrkPt) :
    (pairSamples last lastTime pt).length
      = (toInt (Duration.Seconds (Time.Sub (Parse pt.Time).1 lastTime))).toNat := by
  simp [pairSamples, length_innerLoop]

theorem getElem?_pairSamples (last : TrkPt) (lastTime : Time) (pt : TrkPt) (i : ℕ)
    (hi : i < (toInt (Duration.Seconds (Time.Sub (Parse pt.Time).1 lastTime))).toNat) :
    (pairSamples last lastTime pt)[i]?
      = some (innerBody last pt (Parse pt.Time).1 (Time.Sub (Parse pt.Time).1 lastTime)
          (haversine pt.Lat pt.Lon last.Lat last.Lon) i) := by
  simp [pairSamples, innerLoop, List.getElem?_map, List.getElem?_range hi]

theorem sent_outerLoop_nil (s : LoopState) : outerLoop s [] = s := rfl

theorem outerLoop_cons (s : LoopState) (pt : TrkPt) (pts : List TrkPt) :
    outerLoop s (pt :: pts) = outerLoop (loopBody s pt) pts := rfl


/-! ## Lemmas on `haversine` -/

theorem haversineR_eq : haversineR = 6378137 := by
  unfold haversineR; norm_num

theorem haversine_symm (lat1 lon1 lat2 lon2 : ℝ) :
    haversine lat1 lon1 lat2 lon2 = haversine lat2 lon2 lat1 lon1 := by
  unfold haversine
  simp only
  have h1 : ∀ x y : ℝ, Real.sin ((x - y) / 2.0) = -Real.sin ((y - x) / 2.0) := by
    intro x y
    have : (x - y) / 2.0 = -((y - x) / 2.0) := by norm_num; ring
    rw [this, Real.sin_neg]
  rw [h1 (lat2 * Real.pi / 180.0) (lat1 * Real.pi / 180.0),
    h1 (lon2 * Real.pi / 180.0) (lon1 * Real.pi / 180.0)]
  congr 3
  ring_nf

theorem haversine_example : haversine 0.001 0.0 0.0 0.0 = 0.001 * Real.pi / 180 * 6378137 := by
  unfold haversine
  simp only
  rw [haversineR_eq]
  have hpi := Real.pi_pos
  have hpi4 := Real.pi_le_four
  have e1 : ((0.0 : ℝ) * Real.pi / 180.0 - 0.001 * Real.pi / 180.0) / 2.0
      = -(0.001 * Real.pi / 360) := by ring
  have e2 : ((0.0 : ℝ) * Real.pi / 180.0 - 0.0 * Real.pi / 180.0) / 2.0 = 0 := by norm_num
  rw [e1, e2, Real.sin_zero, Real.sin_neg]
  have hs : 0 ≤ Real.sin (0.001 * Real.pi / 360) :=
    Real.sin_nonneg_of_nonneg_of_le_pi (by positivity) (by linarith)
  have e3 : -Real.sin (0.001 * Real.pi / 360) * -Real.sin (0.001 * Real.pi / 360)
      + Real.cos (0.001 * Real.pi / 180.0) * Real.cos (0.0 * Real.pi / 180.0) * 0 * 0
      = Real.sin (0.001 * Real.pi / 360) ^ 2 := by ring
  rw [e3, Real.sqrt_sq hs, Real.arcsin_sin (by linarith) (by linarith)]
  ring

theorem haversine_example_bounds :
    111.319 < haversine 0.001 0.0 0.0 0.0 ∧ haversine 0.001 0.0 0.0 0.0 < 111.320 := by
  rw [haversine_example]
  have h1 := Real.pi_gt_d6
  have h2 := Real.pi_lt_d6
  constructor <;> nlinarith



theorem map_Time_pairSamples (last : TrkPt) (lastTime : Time) (pt : TrkPt) :
    (pairSamples last lastTime pt).map CSV.Time
      = (List.range (toInt (Duration.Seconds (Time.Sub (Parse pt.Time).1 lastTime))).toNat).map
          (fun i : ℕ => Time.Unix (Parse pt.Time).1 + (i : ℤ)) := by
  simp [pairSamples, innerLoop, innerBody, Function.comp_def]

theorem floor_elapsed_seconds (d : ℤ) : ⌊(d : ℚ) / 1000000000⌋ = d / 1000000000 := by
  have := Rat.floor_intCast_div_natCast d 1000000000
  simpa using this

theorem sent_loopBody (s : LoopState) (pt : TrkPt) :
    (loopBody s pt).sent = s.sent ++ pairSamples s.last s.lastTime pt := rfl

theorem times_of_count {last : TrkPt} {lastTime : Time} {pt : TrkPt} {d : Duration} {t : Time}
    (ht : (Parse pt.Time).1 = t) (hd : Time.Sub t lastTime = d)
    (h0 : 0 ≤ d) (h1 : d < 16777216 * Second) :
    (pairSamples last lastTime pt).map CSV.Time
      = (List.range (d / Second).toNat).map (fun i : ℕ => Time.Unix t + (i : ℤ)) := by
  rw [map_Time_pairSamples, ht, hd, Seconds_toInt h0 h1]

/-- a duration below one second gives no pass of the inner loop. -/
theorem count_eq_zero_of_lt_Second {d : Duration} (h : d < Second) :
    (toInt (Duration.Seconds d)).toNat = 0 := by
  have hS : Second = 1000000000 := rfl
  by_cases h0 : 0 ≤ d
  · have h1 : d < 16777216 * Second := by rw [hS] at h ⊢; linarith
    rw [Seconds_toInt h0 h1]
    have : d / Second = 0 := Int.ediv_eq_zero_of_lt h0 h
    rw [this]; rfl
  · have hs := Seconds_nonpos (le_of_lt (not_le.mp h0))
    rw [toInt_toNat_eq_floor_toNat]
    have hf : ⌊Duration.Seconds d⌋ ≤ 0 := by
      have : (⌊Duration.Seconds d⌋ : ℚ) ≤ 0 := le_trans (Int.floor_le _) hs
      exact_mod_cast this
    exact Int.toNat_of_nonpos hf

/-- a pair for which the inner loop runs at all is at least one second long. -/
theorem Second_le_of_count_pos {d : Duration}
    (h : 0 < (toInt (Duration.Seconds d)).toNat) : Second ≤ d := by
  by_contra hd
  rw [count_eq_zero_of_lt_Second (not_le.mp hd)] at h
  exact lt_irrefl _ h

theorem Sub_le_of_nonneg {t u : Time} (h : 0 ≤ Time.Sub t u) : Time.Sub t u ≤ t - u := by
  unfold Time.Sub at h ⊢
  split_ifs with h1 h2
  · exact le_of_lt h1
  · rw [if_neg h1, if_pos h2] at h
    exact absurd h (by decide)
  · exact le_refl _

theorem Sub_lt_Second {t u : Time} (h : t - u < Second) : Time.Sub t u < Second := by
  unfold Time.Sub
  split_ifs with h1 h2
  · have : maxDuration < Second := lt_trans h1 h
    exact absurd this (by decide)
  · decide
  · exact h

/-- from two seconds on `d.Seconds()` is at least 2. -/
theorem two_le_Seconds {d : Duration} (h : 2 * Second ≤ d) : 2 ≤ Duration.Seconds d := by
  have hS : Second = 1000000000 := rfl
  have hd0 : (0 : ℤ) ≤ d := by rw [hS] at h; linarith
  have hq : 2 ≤ Int.tdiv d Second := by
    rw [Int.tdiv_eq_ediv hd0 (by decide), hS]
    have h' : (2000000000 : ℤ) ≤ d := by rw [hS] at h; linarith
    omega
  have hr : 0 ≤ Int.tmod d Second := Int.tmod_nonneg _ hd0
  have a2 : (2 : ℚ) ^ (1 : ℤ) ≤ roundF64 ((Int.tdiv d Second : ℤ) : ℚ) := by
    apply roundF64_ge_pow (by norm_num)
    have : (2 : ℚ) ≤ ((Int.tdiv d Second : ℤ) : ℚ) := by exact_mod_cast hq
    simpa using this
  have b0 : (0 : ℚ) ≤ roundF64 (roundF64 ((Int.tmod d Second : ℤ) : ℚ) / 1000000000) :=
    roundF64_nonneg (div_nonneg (roundF64_nonneg (by exact_mod_cast hr)) (by norm_num))
  have hsum : (2 : ℚ) ^ (1 : ℤ) ≤ roundF64 ((Int.tdiv d Second : ℤ) : ℚ)
      + roundF64 (roundF64 ((Int.tmod d Second : ℤ) : ℚ) / 1000000000) := by linarith
  have := roundF64_ge_pow (by norm_num) hsum
  unfold Duration.Seconds
  simpa using this

theorem two_le_count {d : Duration} (h : 2 * Second ≤ d) :
    2 ≤ (toInt (Duration.Seconds d)).toNat := by
  have h2 := two_le_Seconds h
  rw [toInt_toNat_eq_floor_toNat]
  have hf : (2 : ℤ) ≤ ⌊Duration.Seconds d⌋ := Int.le_floor.mpr (by exact_mod_cast h2)
  omega

/-- the duration is at least any bound in range that the difference of the instants reaches. -/
theorem le_Sub {t u : Time} {c : Duration} (hc0 : minDuration ≤ c) (hc : c ≤ maxDuration)
    (h : c ≤ t - u) : c ≤ Time.Sub t u := by
  unfold Time.Sub
  split_ifs with h1 h2
  · exact hc
  · exact absurd (lt_of_le_of_lt h h2) (not_lt.mpr hc0)
  · exact h

theorem eq_innerBody_of_getElem? {last : TrkPt} {lastTime : Time} {pt : TrkPt} {i : ℕ} {c : CSV}
    (h : (pairSamples last lastTime pt)[i]? = some c) :
    i < (toInt (Duration.Seconds (Time.Sub (Parse pt.Time).1 lastTime))).toNat ∧
      c = innerBody last pt (Parse pt.Time).1 (Time.Sub (Parse pt.Time).1 lastTime)
        (haversine pt.Lat pt.Lon last.Lat last.Lon) i := by
  have hi : i < (pairSamples last lastTime pt).length := by
    by_contra hcon
    rw [List.getElem?_eq_none (not_lt.mp hcon)] at h
    exact Option.noConfusion h
  rw [length_pairSamples] at hi
  rw [getElem?_pairSamples last lastTime pt i hi] at h
  exact ⟨hi, (Option.some.inj h).symm⟩

/-- a step `v` with `v = r·v` for a ratio `r ≤ 1/2` is zero. -/
theorem eq_of_unnormalised_eq_normalised {a b x : ℝ} (hx : 2 ≤ x)
    (h : a + ((1 : ℕ) : ℝ) * (b - a) = a + (((1 : ℕ) : ℝ) / x) * (b - a)) : b = a := by
  have hx0 : (0 : ℝ) < x := by linarith
  have h1 : (b - a) * (1 - 1 / x) = 0 := by
    push_cast at h
    linear_combination h
  have h2 : (1 : ℝ) - 1 / x ≠ 0 := by
    have : 1 / x ≤ 1 / 2 := one_div_le_one_div_of_le (by norm_num) hx
    linarith
  have := (mul_eq_zero.mp h1).resolve_right h2
  linarith

theorem Seconds_maxDuration :
    Duration.Seconds maxDuration = (4835703278458517 : ℤ) * 2 ^ ((33 : ℤ) - 52) := by
  have e1 : Int.tdiv maxDuration Second = 9223372036 := by decide
  have e2 : Int.tmod maxDuration Second = 854775807 := by decide
  have c1 : roundF64 ((9223372036 : ℤ) : ℚ) = (9223372036 : ℤ) := roundF64_intCast (by decide)
  have c2 : roundF64 ((854775807 : ℤ) : ℚ) = (854775807 : ℤ) := roundF64_intCast (by decide)
  have c3 : roundF64 ((854775807 : ℚ) / 1000000000)
      = (7699136011781030 : ℤ) * 2 ^ ((-1 : ℤ) - 52) :=
    roundF64_eq_of_near (by norm_num) (by rw [abs_of_nonneg (by norm_num)]; norm_num)
      (by rw [abs_of_nonneg (by norm_num)]; norm_num)
      (by rw [abs_lt]; constructor <;> norm_num)
  have c4 : roundF64 ((9223372036 : ℚ) + (7699136011781030 : ℤ) * 2 ^ ((-1 : ℤ) - 52))
      = (4835703278458517 : ℤ) * 2 ^ ((33 : ℤ) - 52) :=
    roundF64_eq_of_near (by norm_num) (by rw [abs_of_nonneg (by norm_num)]; norm_num)
      (by rw [abs_of_nonneg (by norm_num)]; norm_num)
      (by rw [abs_lt]; constructor <;> norm_num)
  unfold Duration.Seconds
  rw [e1, e2, c1, c2]
  push_cast
  rw [c3, c4]
  norm_num

/-- the largest duration gives 9223372036 passes of the inner loop. -/
theorem count_maxDuration : (toInt (Duration.Seconds maxDuration)).toNat = 9223372036 := by
  rw [toInt_toNat_eq_floor_toNat, Seconds_maxDuration]
  have : ⌊((4835703278458517 : ℤ) : ℚ) * 2 ^ ((33 : ℤ) - 52)⌋ = 9223372036 :=
    Int.floor_eq_iff.mpr ⟨by norm_num, by norm_num⟩
  rw [this]; rfl

theorem toInt_intCast (k : ℤ) : toInt (k : ℚ) = k := by
  unfold toInt
  split_ifs
  · exact Int.floor_intCast k
  · exact Int.ceil_intCast k

/-- the count of a pair a whole number of seconds apart, inside the range of `Duration`. -/
theorem count_whole {t u : Time} {k : ℤ} (h0 : 0 ≤ k) (h1 : k ≤ 9223372036)
    (h : t - u = k * Second) : (toInt (Duration.Seconds (Time.Sub t u))).toNat = k.toNat := by
  have hS : Second = 1000000000 := rfl
  have hsub : Time.Sub t u = k * Second := by
    rw [Sub_eq (by rw [h, hS]; unfold minDuration; linarith)
      (by rw [h, hS]; unfold maxDuration; linarith), h]
  have hk : |k| < 2 ^ 53 := by rw [abs_of_nonneg h0]; omega
  rw [hsub, Seconds_whole hk, toInt_intCast]

theorem length_sent_outerLoop_whole (secs : List ℤ) :
    ∀ (s : LoopState) (rest : List TrkPt) (s0 : ℤ), s.lastTime = s0 * Second →
      rest.map TrkPt.Time = secs.map (fun a => some (a * Second)) →
      List.Chain (fun a b => a ≤ b ∧ b - a ≤ 9223372036) s0 secs →
      (((outerLoop s rest).sent.length : ℤ)
        = s.sent.length + ((s0 :: secs).getLast (List.cons_ne_nil _ _) - s0)) := by
  induction secs with
  | nil =>
    intro s rest s0 _ hrest _
    have : rest = [] := by simpa using hrest
    subst this
    simp [outerLoop]
  | cons a secs ih =>
    intro s rest s0 hs hrest hchain
    cases rest with
    | nil => simp at hrest
    | cons pt rest =>
      simp only [List.map_cons, List.cons.injEq] at hrest
      obtain ⟨hpt, hrest⟩ := hrest
      rw [List.chain_cons] at hchain
      obtain ⟨⟨hle, hgap⟩, hchain⟩ := hchain
      have hpt1 : (Parse pt.Time).1 = a * Second := by rw [hpt]; rfl
      have hcount : (pairSamples s.last s.lastTime pt).length = (a - s0).toNat := by
        rw [length_pairSamples, hpt1, hs]
        exact count_whole (by omega) hgap (by ring)
      have hstep := ih (loopBody s pt) rest a hpt1 hrest hchain
      rw [outerLoop_cons, hstep, sent_loopBody, List.length_append, hcount]
      rw [List.getLast_cons (List.cons_ne_nil a secs)]
      push_cast
      rw [Int.toNat_of_nonneg (by omega)]
      ring

/-! ## Lemmas on the handoff -/

theorem Inv_start (rows : List CSV) : Pipeline.Inv rows (Pipeline.start rows) := by
  simp [Pipeline.Inv, Pipeline.start]

theorem Inv_step {rows : List CSV} {s s' : Pipeline} (hinv : Pipeline.Inv rows s)
    (h : Pipeline.Step s s') : Pipeline.Inv rows s' := by
  obtain ⟨p, c, cl, l, m⟩ := s
  cases p with
  | sending rest =>
    cases rest <;> cases c <;> cases cl <;>
      simp [Pipeline.Step, Pipeline.next, Pipeline.handoff, Pipeline.append, Pipeline.close,
        Pipeline.rangeEnd, Pipeline.marshal, Pipeline.signal, List.reduceOption,
        Pipeline.Inv] at hinv h <;>
      (try rcases h with h | h) <;> (try subst h) <;> simp_all [Pipeline.Inv]
  | waiting =>
    cases c <;> cases cl <;>
      simp [Pipeline.Step, Pipeline.next, Pipeline.handoff, Pipeline.append, Pipeline.close,
        Pipeline.rangeEnd, Pipeline.marshal, Pipeline.signal, List.reduceOption,
        Pipeline.Inv] at hinv h <;>
      (try rcases h with h | h) <;> simp_all [Pipeline.Inv]
  | returned =>
    cases c <;> cases cl <;>
      simp [Pipeline.Step, Pipeline.next, Pipeline.handoff, Pipeline.append, Pipeline.close,
        Pipeline.rangeEnd, Pipeline.marshal, Pipeline.signal, List.reduceOption,
        Pipeline.Inv] at hinv h

theorem stepsLeft_step {s s' : Pipeline} (h : Pipeline.Step s s') :
    s'.stepsLeft < s.stepsLeft := by
  obtain ⟨p, c, cl, l, m⟩ := s
  cases p with
  | sending rest =>
    cases rest <;> cases c <;> cases cl <;>
      simp [Pipeline.Step, Pipeline.next, Pipeline.handoff, Pipeline.append, Pipeline.close,
        Pipeline.rangeEnd, Pipeline.marshal, Pipeline.signal, List.reduceOption] at h <;>
      (try rcases h with h | h) <;> (try subst h) <;> simp [Pipeline.stepsLeft] <;> omega
  | waiting =>
    cases c <;> cases cl <;>
      simp [Pipeline.Step, Pipeline.next, Pipeline.handoff, Pipeline.append, Pipeline.close,
        Pipeline.rangeEnd, Pipeline.marshal, Pipeline.signal, List.reduceOption] at h <;>
      (try rcases h with h | h) <;> simp [Pipeline.stepsLeft]
  | returned =>
    cases c <;> cases cl <;>
      simp [Pipeline.Step, Pipeline.next, Pipeline.handoff, Pipeline.append, Pipeline.close,
        Pipeline.rangeEnd, Pipeline.marshal, Pipeline.signal, List.reduceOption] at h
    all_goals (subst h; simp [Pipeline.stepsLeft])

theorem exists_step_of_Inv {rows : List CSV} {s : Pipeline} (hinv : Pipeline.Inv rows s)
    (h : s.producer ≠ ProducerAt.returned) : ∃ s', Pipeline.Step s s' := by
  obtain ⟨p, c, cl, l, m⟩ := s
  cases p with
  | sending rest =>
    cases rest <;> cases c <;> cases cl <;>
      simp [Pipeline.Inv] at hinv <;>
      simp [Pipeline.Step, Pipeline.next, Pipeline.handoff, Pipeline.append, Pipeline.close,
        Pipeline.rangeEnd, Pipeline.marshal, Pipeline.signal, List.reduceOption]
  | waiting =>
    cases c <;> cases cl <;>
      simp [Pipeline.Inv] at hinv <;>
      simp [Pipeline.Step, Pipeline.next, Pipeline.handoff, Pipeline.append, Pipeline.close,
        Pipeline.rangeEnd, Pipeline.marshal, Pipeline.signal, List.reduceOption]
  | returned => exact absurd rfl h

theorem Inv_of_Reaches {rows : List CSV} {s : Pipeline}
    (h : Pipeline.Reaches (Pipeline.start rows) s) : Pipeline.Inv rows s := by
  unfold Pipeline.Reaches at h
  induction h with
  | refl => exact Inv_start rows
  | tail _ hstep ih => exact Inv_step ih hstep

/-- what the invariant says of the list handed to the sink. -/
theorem marshalled_of_Inv {rows : List CSV} {s : Pipeline} (hinv : Pipeline.Inv rows s) :
    (s.marshalled = [] ∨ s.marshalled = [rows]) ∧
      (s.marshalled ≠ [] → s.closed = true ∧ s.csvList = rows) ∧
      (s.producer = ProducerAt.returned →
        s.marshalled = [rows] ∧ s.closed = true ∧ s.consumer = ConsumerAt.finished) := by
  obtain ⟨p, c, cl, l, m⟩ := s
  cases p <;> cases c <;> simp [Pipeline.Inv] at hinv ⊢ <;> simp [hinv]

/-- from every state of a run the pipeline can run to the end. -/
theorem exists_returned {rows : List CSV} (n : ℕ) :
    ∀ s : Pipeline, Pipeline.Inv rows s → s.stepsLeft ≤ n →
      ∃ s', Pipeline.Reaches s s' ∧ s'.producer = ProducerAt.returned := by
  induction n with
  | zero =>
    intro s hinv hn
    by_cases hp : s.producer = ProducerAt.returned
    · exact ⟨s, Relation.ReflTransGen.refl, hp⟩
    · obtain ⟨s', hs'⟩ := exists_step_of_Inv hinv hp
      have := stepsLeft_step hs'
      omega
  | succ n ih =>
    intro s hinv hn
    by_cases hp : s.producer = ProducerAt.returned
    · exact ⟨s, Relation.ReflTransGen.refl, hp⟩
    · obtain ⟨s', hs'⟩ := exists_step_of_Inv hinv hp
      have hlt := stepsLeft_step hs'
      obtain ⟨s'', hr, hd⟩ := ih s' (Inv_step hinv hs') (by omega)
      exact ⟨s'', Relation.ReflTransGen.head hs' hr, hd⟩

/-- the facts on the runs from `Pipeline.start rows` that the claims on the handoff use. -/
theorem handoff_facts (rows : List CSV) :
    (∀ s, Pipeline.Reaches (Pipeline.start rows) s →
        (s.marshalled = [] ∨ s.marshalled = [rows]) ∧
        (s.marshalled ≠ [] → s.closed = true ∧ s.csvList = rows) ∧
        (s.producer = ProducerAt.returned →
          s.marshalled = [rows] ∧ s.closed = true ∧ s.consumer = ConsumerAt.finished)) ∧
    (∀ s, Pipeline.Reaches (Pipeline.start rows) s → s.producer ≠ ProducerAt.returned →
        ∃ s', Pipeline.Step s s') ∧
    (∀ s s', Pipeline.Step s s' → s'.stepsLeft < s.stepsLeft) ∧
    (∃ s, Pipeline.Reaches (Pipeline.start rows) s ∧ s.producer = ProducerAt.returned) :=
  ⟨fun _ h => marshalled_of_Inv (Inv_of_Reaches h),
    fun _ h hp => exists_step_of_Inv (Inv_of_Reaches h) hp,
    fun _ _ h => stepsLeft_step h,
    exists_returned _ _ (Inv_start rows) (le_refl _)⟩

/-! ## Lemmas on the float64 evaluation of `haversine` -/

/-- the float64 nearest to a positive `x`, from its exponent `e` and its mantissa `m`. -/
theorem roundF64_eval_pos {x r : ℚ} (e m : ℤ) (he : -1022 ≤ e) (h1 : 2 ^ e ≤ x)
    (h2 : x < 2 ^ (e + 1)) (h3 : (m : ℚ) - 1 / 2 < x / 2 ^ (e - 52))
    (h4 : x / 2 ^ (e - 52) < (m : ℚ) + 1 / 2) (hr : (m : ℚ) * 2 ^ (e - 52) = r) :
    roundF64 x = r := by
  have hx : 0 ≤ x := le_trans (zpow_pos (by norm_num) e).le h1
  rw [← hr]
  apply roundF64_eq_of_near he
  · rw [abs_of_nonneg hx]; exact h1
  · rw [abs_of_nonneg hx]; exact h2
  · rw [abs_lt]; constructor <;> linarith

/-- the float64 nearest to a negative `x`, from its exponent `e` and its mantissa `m`. -/
theorem roundF64_eval_neg {x r : ℚ} (e m : ℤ) (he : -1022 ≤ e) (h1 : 2 ^ e ≤ -x)
    (h2 : -x < 2 ^ (e + 1)) (h3 : (m : ℚ) - 1 / 2 < x / 2 ^ (e - 52))
    (h4 : x / 2 ^ (e - 52) < (m : ℚ) + 1 / 2) (hr : (m : ℚ) * 2 ^ (e - 52) = r) :
    roundF64 x = r := by
  have hx : x ≤ 0 := by
    have := le_trans (zpow_pos (by norm_num) e).le h1
    linarith
  rw [← hr]
  apply roundF64_eq_of_near he
  · rw [abs_of_nonpos hx]; exact h1
  · rw [abs_of_nonpos hx]; exact h2
  · rw [abs_lt]; constructor <;> linarith

theorem roundHalfEven_tie {y : ℚ} (m : ℤ) (hm : m % 2 = 0)
    (h : y = (m : ℚ) + 1 / 2 ∨ y = (m : ℚ) - 1 / 2) : roundHalfEven y = m := by
  rcases h with h | h
  · have hf : ⌊y⌋ = m := Int.floor_eq_iff.mpr ⟨by rw [h]; linarith, by rw [h]; linarith⟩
    unfold roundHalfEven
    rw [hf, h]
    have e1 : ¬ (2 * ((m : ℚ) + 1 / 2 - (m : ℚ)) < 1) := by norm_num
    have e2 : ¬ (1 < 2 * ((m : ℚ) + 1 / 2 - (m : ℚ))) := by norm_num
    rw [if_neg e1, if_neg e2, if_pos hm]
  · have hf : ⌊y⌋ = m - 1 := Int.floor_eq_iff.mpr
      ⟨by rw [h]; push_cast; linarith, by rw [h]; push_cast; linarith⟩
    unfold roundHalfEven
    rw [hf, h]
    have e1 : ¬ (2 * ((m : ℚ) - 1 / 2 - ((m - 1 : ℤ) : ℚ)) < 1) := by push_cast; norm_num
    have e2 : ¬ (1 < 2 * ((m : ℚ) - 1 / 2 - ((m - 1 : ℤ) : ℚ))) := by push_cast; norm_num
    have e3 : ¬ ((m - 1) % 2 = 0) := by omega
    rw [if_neg e1, if_neg e2, if_neg e3]
    ring

/-- the float64 nearest to a positive `x` half way between two of them: the one with the
even mantissa `m`. -/
theorem roundF64_eval_tie {x r : ℚ} (e m : ℤ) (he : -1022 ≤ e) (h1 : 2 ^ e ≤ x)
    (h2 : x < 2 ^ (e + 1)) (hm : m % 2 = 0)
    (h3 : x / 2 ^ (e - 52) = (m : ℚ) + 1 / 2 ∨ x / 2 ^ (e - 52) = (m : ℚ) - 1 / 2)
    (hr : (m : ℚ) * 2 ^ (e - 52) = r) : roundF64 x = r := by
  have hpos : 0 < x := lt_of_lt_of_le (zpow_pos (by norm_num) e) h1
  have hx : x ≠ 0 := hpos.ne'
  have habs : |x| = x := abs_of_pos hpos
  unfold roundF64
  rw [if_neg hx, ulpExp_eq he (by rw [habs]; exact h1) (by rw [habs]; exact h2),
    roundHalfEven_tie m hm h3, hr]


theorem Pi64_eq : Pi64 = (884279719003555 / 281474976710656 : ℚ) :=
  roundF64_eval_pos 1 7074237752028440 (by norm_num) (by norm_num) (by norm_num)
      (by norm_num) (by norm_num) (by norm_num)

theorem fourOverPi64_eq : fourOverPi64 = (5734161139222659 / 4503599627370496 : ℚ) :=
  roundF64_eval_pos 0 5734161139222659 (by norm_num) (by norm_num) (by norm_num)
      (by norm_num) (by norm_num) (by norm_num)

theorem PI4A_eq : PI4A = (6588397 / 8388608 : ℚ) :=
  roundF64_eval_pos (-1) 7074237412016128 (by norm_num) (by norm_num) (by norm_num)
      (by norm_num) (by norm_num) (by norm_num)

theorem PI4B_eq : PI4B = (1328173 / 35184372088832 : ℚ) :=
  roundF64_eval_pos (-25) 5704459598430208 (by norm_num) (by norm_num) (by norm_num)
      (by norm_num) (by norm_num) (by norm_num)

theorem PI4C_eq : PI4C = (427063790847255 / 158456325028528675187087900672 : ℚ) :=
  roundF64_eval_pos (-49) 6833020653556080 (by norm_num) (by norm_num) (by norm_num)
      (by norm_num) (by norm_num) (by norm_num)

theorem tab_sin_0_eq : _sin 0 = (6149556183080141 / 38685626227668133590597632 : ℚ) :=
  roundF64_eval_pos (-33) 6149556183080141 (by norm_num) (by norm_num) (by norm_num)
      (by norm_num) (by norm_num) (by norm_num)

theorem tab_sin_1_eq : _sin 1 = (-7571123942793053 / 302231454903657293676544 : ℚ) :=
  roundF64_eval_neg (-26) (-7571123942793053) (by norm_num) (by norm_num) (by norm_num)
      (by norm_num) (by norm_num) (by norm_num)

theorem tab_sin_2_eq : _sin 2 = (6506786710177953 / 2361183241434822606848 : ℚ) :=
  roundF64_eval_pos (-19) 6506786710177953 (by norm_num) (by norm_num) (by norm_num)
      (by norm_num) (by norm_num) (by norm_num)

theorem tab_sin_3_eq : _sin 3 = (-7320136532877059 / 36893488147419103232 : ℚ) :=
  roundF64_eval_neg (-13) (-7320136532877059) (by norm_num) (by norm_num) (by norm_num)
      (by norm_num) (by norm_num) (by norm_num)

theorem tab_sin_4_eq : _sin 4 = (300239975157629 / 36028797018963968 : ℚ) :=
  roundF64_eval_pos (-7) 4803839602522064 (by norm_num) (by norm_num) (by norm_num)
      (by norm_num) (by norm_num) (by norm_num)

theorem tab_sin_5_eq : _sin 5 = (-750599937895081 / 4503599627370496 : ℚ) :=
  roundF64_eval_neg (-3) (-6004799503160648) (by norm_num) (by norm_num) (by norm_num)
      (by norm_num) (by norm_num) (by norm_num)

theorem tab_cos_0_eq : _cos 0 = (-7030593573755547 / 618970019642690137449562112 : ℚ) :=
  roundF64_eval_neg (-37) (-7030593573755547) (by norm_num) (by norm_num) (by norm_num)
      (by norm_num) (by norm_num) (by norm_num)

theorem tab_cos_1_eq : _cos 1 = (5047434750082821 / 2417851639229258349412352 : ℚ) :=
  roundF64_eval_pos (-29) 5047434750082821 (by norm_num) (by norm_num) (by norm_num)
      (by norm_num) (by norm_num) (by norm_num)

theorem tab_cos_2_eq : _cos 2 = (-2602714736764387 / 9444732965739290427392 : ℚ) :=
  roundF64_eval_neg (-22) (-5205429473528774) (by norm_num) (by norm_num) (by norm_num)
      (by norm_num) (by norm_num) (by norm_num)

theorem tab_cos_3_eq : _cos 3 = (7320136533427445 / 295147905179352825856 : ℚ) :=
  roundF64_eval_pos (-16) 7320136533427445 (by norm_num) (by norm_num) (by norm_num)
      (by norm_num) (by norm_num) (by norm_num)

theorem tab_cos_4_eq : _cos 4 = (-6405119470030737 / 4611686018427387904 : ℚ) :=
  roundF64_eval_neg (-10) (-6405119470030737) (by norm_num) (by norm_num) (by norm_num)
      (by norm_num) (by norm_num) (by norm_num)

theorem tab_cos_5_eq : _cos 5 = (6004799503160651 / 144115188075855872 : ℚ) :=
  roundF64_eval_pos (-5) 6004799503160651 (by norm_num) (by norm_num) (by norm_num)
      (by norm_num) (by norm_num) (by norm_num)

theorem sinKernel_lat : sinKernel (1619764637289445 / 2251799813685248 : ℚ) = (2967301503771247 / 4503599627370496 : ℚ) := by
  have h1 : fmul (1619764637289445 / 2251799813685248 : ℚ) (1619764637289445 / 2251799813685248 : ℚ) = (4660516382083925 / 9007199254740992 : ℚ) :=
    roundF64_eval_pos (-1) 4660516382083925 (by norm_num) (by norm_num) (by norm_num)
      (by norm_num) (by norm_num) (by norm_num)
  have h2 : fmul (6149556183080141 / 38685626227668133590597632 : ℚ) (4660516382083925 / 9007199254740992 : ℚ) = (3181911105020251 / 38685626227668133590597632 : ℚ) :=
    roundF64_eval_pos (-34) 6363822210040502 (by norm_num) (by norm_num) (by norm_num)
      (by norm_num) (by norm_num) (by norm_num)
  have h3 : fadd (3181911105020251 / 38685626227668133590597632 : ℚ) (-7571123942793053 / 302231454903657293676544 : ℚ) = (-3773132631142541 / 151115727451828646838272 : ℚ) :=
    roundF64_eval_neg (-26) (-7546265262285082) (by norm_num) (by norm_num) (by norm_num)
      (by norm_num) (by norm_num) (by norm_num)
  have h4 : fmul (-3773132631142541 / 151115727451828646838272 : ℚ) (4660516382083925 / 9007199254740992 : ℚ) = (-1952299037901199 / 151115727451828646838272 : ℚ) :=
    roundF64_eval_neg (-27) (-7809196151604796) (by norm_num) (by norm_num) (by norm_num)
      (by norm_num) (by norm_num) (by norm_num)
  have h5 : fadd (-1952299037901199 / 151115727451828646838272 : ℚ) (6506786710177953 / 2361183241434822606848 : ℚ) = (6476282037710747 / 2361183241434822606848 : ℚ) :=
    roundF64_eval_pos (-19) 6476282037710747 (by norm_num) (by norm_num) (by norm_num)
      (by norm_num) (by norm_num) (by norm_num)
  have h6 : fmul (6476282037710747 / 2361183241434822606848 : ℚ) (4660516382083925 / 9007199254740992 : ℚ) = (52358843878169 / 36893488147419103232 : ℚ) :=
    roundF64_eval_pos (-20) 6701932016405632 (by norm_num) (by norm_num) (by norm_num)
      (by norm_num) (by norm_num) (by norm_num)
  have h7 : fadd (52358843878169 / 36893488147419103232 : ℚ) (-7320136532877059 / 36893488147419103232 : ℚ) = (-3633888844499445 / 18446744073709551616 : ℚ) :=
    roundF64_eval_neg (-13) (-7267777688998890) (by norm_num) (by norm_num) (by norm_num)
      (by norm_num) (by norm_num) (by norm_num)
  have h8 : fmul (-3633888844499445 / 18446744073709551616 : ℚ) (4660516382083925 / 9007199254740992 : ℚ) = (-3760502684904507 / 36893488147419103232 : ℚ) :=
    roundF64_eval_neg (-14) (-7521005369809014) (by norm_num) (by norm_num) (by norm_num)
      (by norm_num) (by norm_num) (by norm_num)
  have h9 : fadd (-3760502684904507 / 36893488147419103232 : ℚ) (300239975157629 / 36028797018963968 : ℚ) = (4745081748070431 / 576460752303423488 : ℚ) :=
    roundF64_eval_pos (-7) 4745081748070431 (by norm_num) (by norm_num) (by norm_num)
      (by norm_num) (by norm_num) (by norm_num)
  have h10 : fmul (4745081748070431 / 576460752303423488 : ℚ) (4660516382083925 / 9007199254740992 : ℚ) = (1227603087028943 / 288230376151711744 : ℚ) :=
    roundF64_eval_pos (-8) 4910412348115772 (by norm_num) (by norm_num) (by norm_num)
      (by norm_num) (by norm_num) (by norm_num)
  have h11 : fadd (1227603087028943 / 288230376151711744 : ℚ) (-750599937895081 / 4503599627370496 : ℚ) = (-2925674558641015 / 18014398509481984 : ℚ) :=
    roundF64_eval_neg (-3) (-5851349117282030) (by norm_num) (by norm_num) (by norm_num)
      (by norm_num) (by norm_num) (by norm_num)
  have h12 : fmul (1619764637289445 / 2251799813685248 : ℚ) (4660516382083925 / 9007199254740992 : ℚ) = (3352402634252487 / 9007199254740992 : ℚ) :=
    roundF64_eval_pos (-2) 6704805268504974 (by norm_num) (by norm_num) (by norm_num)
      (by norm_num) (by norm_num) (by norm_num)
  have h13 : fmul (3352402634252487 / 9007199254740992 : ℚ) (-2925674558641015 / 18014398509481984 : ℚ) = (-4355644332922291 / 72057594037927936 : ℚ) :=
    roundF64_eval_neg (-5) (-8711288665844582) (by norm_num) (by norm_num) (by norm_num)
      (by norm_num) (by norm_num) (by norm_num)
  have h14 : fadd (1619764637289445 / 2251799813685248 : ℚ) (-4355644332922291 / 72057594037927936 : ℚ) = (2967301503771247 / 4503599627370496 : ℚ) :=
    roundF64_eval_pos (-1) 5934603007542494 (by norm_num) (by norm_num) (by norm_num)
      (by norm_num) (by norm_num) (by norm_num)
  simp only [sinKernel, sinPoly, Pi64_eq, fourOverPi64_eq, PI4A_eq, PI4B_eq, PI4C_eq,
    tab_sin_0_eq, tab_sin_1_eq, tab_sin_2_eq, tab_sin_3_eq, tab_sin_4_eq, tab_sin_5_eq,
    tab_cos_0_eq, tab_cos_1_eq, tab_cos_2_eq, tab_cos_3_eq, tab_cos_4_eq, tab_cos_5_eq, h1, h2,
    h3, h4, h5, h6, h7, h8, h9, h10, h11, h12, h13, h14]

theorem cosKernel_lat : cosKernel (1619764637289445 / 2251799813685248 : ℚ) = (6775701111875751 / 9007199254740992 : ℚ) := by
  have h1 : fmul (1619764637289445 / 2251799813685248 : ℚ) (1619764637289445 / 2251799813685248 : ℚ) = (4660516382083925 / 9007199254740992 : ℚ) :=
    roundF64_eval_pos (-1) 4660516382083925 (by norm_num) (by norm_num) (by norm_num)
      (by norm_num) (by norm_num) (by norm_num)
  have h2 : fmul (-7030593573755547 / 618970019642690137449562112 : ℚ) (4660516382083925 / 9007199254740992 : ℚ) = (-7275557162569711 / 1237940039285380274899124224 : ℚ) :=
    roundF64_eval_neg (-38) (-7275557162569711) (by norm_num) (by norm_num) (by norm_num)
      (by norm_num) (by norm_num) (by norm_num)
  have h3 : fadd (-7275557162569711 / 1237940039285380274899124224 : ℚ) (5047434750082821 / 2417851639229258349412352 : ℚ) = (5033224677499677 / 2417851639229258349412352 : ℚ) :=
    roundF64_eval_pos (-29) 5033224677499677 (by norm_num) (by norm_num) (by norm_num)
      (by norm_num) (by norm_num) (by norm_num)
  have h4 : fmul (5033224677499677 / 2417851639229258349412352 : ℚ) (4660516382083925 / 9007199254740992 : ℚ) = (5208594902982605 / 4835703278458516698824704 : ℚ) :=
    roundF64_eval_pos (-30) 5208594902982605 (by norm_num) (by norm_num) (by norm_num)
      (by norm_num) (by norm_num) (by norm_num)
  have h5 : fadd (5208594902982605 / 4835703278458516698824704 : ℚ) (-2602714736764387 / 9444732965739290427392 : ℚ) = (-2592541699844499 / 9444732965739290427392 : ℚ) :=
    roundF64_eval_neg (-22) (-5185083399688998) (by norm_num) (by norm_num) (by norm_num)
      (by norm_num) (by norm_num) (by norm_num)
  have h6 : fmul (-2592541699844499 / 9444732965739290427392 : ℚ) (4660516382083925 / 9007199254740992 : ℚ) = (-5365744765555733 / 37778931862957161709568 : ℚ) :=
    roundF64_eval_neg (-23) (-5365744765555733) (by norm_num) (by norm_num) (by norm_num)
      (by norm_num) (by norm_num) (by norm_num)
  have h7 : fadd (-5365744765555733 / 37778931862957161709568 : ℚ) (7320136533427445 / 295147905179352825856 : ℚ) = (7278216652446541 / 295147905179352825856 : ℚ) :=
    roundF64_eval_pos (-16) 7278216652446541 (by norm_num) (by norm_num) (by norm_num)
      (by norm_num) (by norm_num) (by norm_num)
  have h8 : fmul (7278216652446541 / 295147905179352825856 : ℚ) (4660516382083925 / 9007199254740992 : ℚ) = (3765904026518455 / 295147905179352825856 : ℚ) :=
    roundF64_eval_pos (-17) 7531808053036910 (by norm_num) (by norm_num) (by norm_num)
      (by norm_num) (by norm_num) (by norm_num)
  have h9 : fadd (3765904026518455 / 295147905179352825856 : ℚ) (-6405119470030737 / 4611686018427387904 : ℚ) = (-3173138609808193 / 2305843009213693952 : ℚ) :=
    roundF64_eval_neg (-10) (-6346277219616386) (by norm_num) (by norm_num) (by norm_num)
      (by norm_num) (by norm_num) (by norm_num)
  have h10 : fmul (-3173138609808193 / 2305843009213693952 : ℚ) (4660516382083925 / 9007199254740992 : ℚ) = (-6567397502991887 / 9223372036854775808 : ℚ) :=
    roundF64_eval_neg (-11) (-6567397502991887) (by norm_num) (by norm_num) (by norm_num)
      (by norm_num) (by norm_num) (by norm_num)
  have h11 : fadd (-6567397502991887 / 9223372036854775808 : ℚ) (6004799503160651 / 144115188075855872 : ℚ) = (5902183917176403 / 144115188075855872 : ℚ) :=
    roundF64_eval_pos (-5) 5902183917176403 (by norm_num) (by norm_num) (by norm_num)
      (by norm_num) (by norm_num) (by norm_num)
  have h12 : fmul 0.5 (4660516382083925 / 9007199254740992 : ℚ) = (4660516382083925 / 18014398509481984 : ℚ) :=
    roundF64_eval_pos (-2) 4660516382083925 (by norm_num) (by norm_num) (by norm_num)
      (by norm_num) (by norm_num) (by norm_num)
  have h13 : fsub (1 : ℚ) (4660516382083925 / 18014398509481984 : ℚ) = (3338470531849515 / 4503599627370496 : ℚ) :=
    roundF64_eval_tie (-1) 6676941063699030 (by norm_num) (by norm_num) (by norm_num) (by decide)
      (Or.inr (by norm_num)) (by norm_num)
  have h14 : fmul (4660516382083925 / 9007199254740992 : ℚ) (4660516382083925 / 9007199254740992 : ℚ) = (2411450255887253 / 9007199254740992 : ℚ) :=
    roundF64_eval_pos (-2) 4822900511774506 (by norm_num) (by norm_num) (by norm_num)
      (by norm_num) (by norm_num) (by norm_num)
  have h15 : fmul (2411450255887253 / 9007199254740992 : ℚ) (5902183917176403 / 144115188075855872 : ℚ) = (3160321541655057 / 288230376151711744 : ℚ) :=
    roundF64_eval_pos (-7) 6320643083310114 (by norm_num) (by norm_num) (by norm_num)
      (by norm_num) (by norm_num) (by norm_num)
  have h16 : fadd (3338470531849515 / 4503599627370496 : ℚ) (3160321541655057 / 288230376151711744 : ℚ) = (6775701111875751 / 9007199254740992 : ℚ) :=
    roundF64_eval_pos (-1) 6775701111875751 (by norm_num) (by norm_num) (by norm_num)
      (by norm_num) (by norm_num) (by norm_num)
  simp only [cosKernel, cosPoly, Pi64_eq, fourOverPi64_eq, PI4A_eq, PI4B_eq, PI4C_eq,
    tab_sin_0_eq, tab_sin_1_eq, tab_sin_2_eq, tab_sin_3_eq, tab_sin_4_eq, tab_sin_5_eq,
    tab_cos_0_eq, tab_cos_1_eq, tab_cos_2_eq, tab_cos_3_eq, tab_cos_4_eq, tab_cos_5_eq, h1, h2,
    h3, h4, h5, h6, h7, h8, h9, h10, h11, h12, h13, h14, h15, h16]

theorem cosKernel_lon : cosKernel (-4851325781271 / 79228162514264337593543950336 : ℚ) = (1 : ℚ) := by
  have h1 : fmul (-4851325781271 / 79228162514264337593543950336 : ℚ) (-4851325781271 / 79228162514264337593543950336 : ℚ) = (5479753444908345 / 1461501637330902918203684832716283019655932542976 : ℚ) :=
    roundF64_eval_pos (-108) 5479753444908345 (by norm_num) (by norm_num) (by norm_num)
      (by norm_num) (by norm_num) (by norm_num)
  have h2 : fmul (-7030593573755547 / 618970019642690137449562112 : ℚ) (5479753444908345 / 1461501637330902918203684832716283019655932542976 : ℚ) = (-4277236271336963 / 100433627766186892221372630771322662657637687111424552206336 : ℚ) :=
    roundF64_eval_neg (-145) (-8554472542673926) (by norm_num) (by norm_num) (by norm_num)
      (by norm_num) (by norm_num) (by norm_num)
  have h3 : fadd (-4277236271336963 / 100433627766186892221372630771322662657637687111424552206336 : ℚ) (5047434750082821 / 2417851639229258349412352 : ℚ) = (5047434750082821 / 2417851639229258349412352 : ℚ) :=
    roundF64_eval_pos (-29) 5047434750082821 (by norm_num) (by norm_num) (by norm_num)
      (by norm_num) (by norm_num) (by norm_num)
  have h4 : fmul (5047434750082821 / 2417851639229258349412352 : ℚ) (5479753444908345 / 1461501637330902918203684832716283019655932542976 : ℚ) = (1535366165301501 / 196159429230833773869868419475239575503198607639501078528 : ℚ) :=
    roundF64_eval_pos (-137) 6141464661206004 (by norm_num) (by norm_num) (by norm_num)
      (by norm_num) (by norm_num) (by norm_num)
  have h5 : fadd (1535366165301501 / 196159429230833773869868419475239575503198607639501078528 : ℚ) (-2602714736764387 / 9444732965739290427392 : ℚ) = (-2602714736764387 / 9444732965739290427392 : ℚ) :=
    roundF64_eval_neg (-22) (-5205429473528774) (by norm_num) (by norm_num) (by norm_num)
      (by norm_num) (by norm_num) (by norm_num)
  have h6 : fmul (-2602714736764387 / 9444732965739290427392 : ℚ) (5479753444908345 / 1461501637330902918203684832716283019655932542976 : ℚ) = (-1583426172946197 / 1532495540865888858358347027150309183618739122183602176 : ℚ) :=
    roundF64_eval_neg (-130) (-6333704691784788) (by norm_num) (by norm_num) (by norm_num)
      (by norm_num) (by norm_num) (by norm_num)
  have h7 : fadd (-1583426172946197 / 1532495540865888858358347027150309183618739122183602176 : ℚ) (7320136533427445 / 295147905179352825856 : ℚ) = (7320136533427445 / 295147905179352825856 : ℚ) :=
    roundF64_eval_pos (-16) 7320136533427445 (by norm_num) (by norm_num) (by norm_num)
      (by norm_num) (by norm_num) (by norm_num)
  have h8 : fmul (7320136533427445 / 295147905179352825856 : ℚ) (5479753444908345 / 1461501637330902918203684832716283019655932542976 : ℚ) = (1113346731092215 / 11972621413014756705924586149611790497021399392059392 : ℚ) :=
    roundF64_eval_pos (-124) 8906773848737720 (by norm_num) (by norm_num) (by norm_num)
      (by norm_num) (by norm_num) (by norm_num)
  have h9 : fadd (1113346731092215 / 11972621413014756705924586149611790497021399392059392 : ℚ) (-6405119470030737 / 4611686018427387904 : ℚ) = (-6405119470030737 / 4611686018427387904 : ℚ) :=
    roundF64_eval_neg (-10) (-6405119470030737) (by norm_num) (by norm_num) (by norm_num)
      (by norm_num) (by norm_num) (by norm_num)
  have h10 : fmul (-6405119470030737 / 4611686018427387904 : ℚ) (5479753444908345 / 1461501637330902918203684832716283019655932542976 : ℚ) = (-1948356780409635 / 374144419156711147060143317175368453031918731001856 : ℚ) :=
    roundF64_eval_neg (-118) (-7793427121638540) (by norm_num) (by norm_num) (by norm_num)
      (by norm_num) (by norm_num) (by norm_num)
  have h11 : fadd (-1948356780409635 / 374144419156711147060143317175368453031918731001856 : ℚ) (6004799503160651 / 144115188075855872 : ℚ) = (6004799503160651 / 144115188075855872 : ℚ) :=
    roundF64_eval_pos (-5) 6004799503160651 (by norm_num) (by norm_num) (by norm_num)
      (by norm_num) (by norm_num) (by norm_num)
  have h12 : fmul 0.5 (5479753444908345 / 1461501637330902918203684832716283019655932542976 : ℚ) = (5479753444908345 / 2923003274661805836407369665432566039311865085952 : ℚ) :=
    roundF64_eval_pos (-109) 5479753444908345 (by norm_num) (by norm_num) (by norm_num)
      (by norm_num) (by norm_num) (by norm_num)
  have h13 : fsub (1 : ℚ) (5479753444908345 / 2923003274661805836407369665432566039311865085952 : ℚ) = (1 : ℚ) :=
    roundF64_eval_pos (-1) 9007199254740992 (by norm_num) (by norm_num) (by norm_num)
      (by norm_num) (by norm_num) (by norm_num)
  have h14 : fmul (5479753444908345 / 1461501637330902918203684832716283019655932542976 : ℚ) (5479753444908345 / 1461501637330902918203684832716283019655932542976 : ℚ) = (833436037322579 / 59285549689505892056868344324448208820874232148807968788202283012051522375647232 : ℚ) :=
    roundF64_eval_pos (-216) 6667488298580632 (by norm_num) (by norm_num) (by norm_num)
      (by norm_num) (by norm_num) (by norm_num)
  have h15 : fmul (833436037322579 / 59285549689505892056868344324448208820874232148807968788202283012051522375647232 : ℚ) (6004799503160651 / 144115188075855872 : ℚ) = (4444992199053747 / 7588550360256754183279148073529370729071901715047420004889892225542594864082845696 : ℚ) :=
    roundF64_eval_pos (-221) 8889984398107494 (by norm_num) (by norm_num) (by norm_num)
      (by norm_num) (by norm_num) (by norm_num)
  have h16 : fadd (1 : ℚ) (4444992199053747 / 7588550360256754183279148073529370729071901715047420004889892225542594864082845696 : ℚ) = (1 : ℚ) :=
    roundF64_eval_pos 0 4503599627370496 (by norm_num) (by norm_num) (by norm_num)
      (by norm_num) (by norm_num) (by norm_num)
  simp only [cosKernel, cosPoly, Pi64_eq, fourOverPi64_eq, PI4A_eq, PI4B_eq, PI4C_eq,
    tab_sin_0_eq, tab_sin_1_eq, tab_sin_2_eq, tab_sin_3_eq, tab_sin_4_eq, tab_sin_5_eq,
    tab_cos_0_eq, tab_cos_1_eq, tab_cos_2_eq, tab_cos_3_eq, tab_cos_4_eq, tab_cos_5_eq, h1, h2,
    h3, h4, h5, h6, h7, h8, h9, h10, h11, h12, h13, h14, h15, h16]

theorem codyWaite_lat : codyWaite (1619764637289445 / 2251799813685248 : ℚ) (0 : ℚ) = (1619764637289445 / 2251799813685248 : ℚ) := by
  have h1 : fmul (0 : ℚ) (6588397 / 8388608 : ℚ) = (0 : ℚ) := by
    norm_num [fadd, fsub, fmul, fdiv, roundF64_zero]
  have h2 : fsub (1619764637289445 / 2251799813685248 : ℚ) (0 : ℚ) = (1619764637289445 / 2251799813685248 : ℚ) :=
    roundF64_eval_pos (-1) 6479058549157780 (by norm_num) (by norm_num) (by norm_num)
      (by norm_num) (by norm_num) (by norm_num)
  have h3 : fmul (0 : ℚ) (1328173 / 35184372088832 : ℚ) = (0 : ℚ) := by
    norm_num [fadd, fsub, fmul, fdiv, roundF64_zero]
  have h4 : fmul (0 : ℚ) (427063790847255 / 158456325028528675187087900672 : ℚ) = (0 : ℚ) := by
    norm_num [fadd, fsub, fmul, fdiv, roundF64_zero]
  simp only [codyWaite, Pi64_eq, fourOverPi64_eq, PI4A_eq, PI4B_eq, PI4C_eq, tab_sin_0_eq,
    tab_sin_1_eq, tab_sin_2_eq, tab_sin_3_eq, tab_sin_4_eq, tab_sin_5_eq, tab_cos_0_eq,
    tab_cos_1_eq, tab_cos_2_eq, tab_cos_3_eq, tab_cos_4_eq, tab_cos_5_eq, h1, h2, h3, h4]

theorem codyWaite_lon : codyWaite (884279719003555 / 562949953421312 : ℚ) (2 : ℚ) = (-4851325781271 / 79228162514264337593543950336 : ℚ) := by
  have h1 : fmul (2 : ℚ) (6588397 / 8388608 : ℚ) = (6588397 / 4194304 : ℚ) :=
    roundF64_eval_pos 0 7074237412016128 (by norm_num) (by norm_num) (by norm_num)
      (by norm_num) (by norm_num) (by norm_num)
  have h2 : fsub (884279719003555 / 562949953421312 : ℚ) (6588397 / 4194304 : ℚ) = (42501539 / 562949953421312 : ℚ) :=
    roundF64_eval_pos (-24) 5704460001083392 (by norm_num) (by norm_num) (by norm_num)
      (by norm_num) (by norm_num) (by norm_num)
  have h3 : fmul (2 : ℚ) (1328173 / 35184372088832 : ℚ) = (1328173 / 17592186044416 : ℚ) :=
    roundF64_eval_pos (-24) 5704459598430208 (by norm_num) (by norm_num) (by norm_num)
      (by norm_num) (by norm_num) (by norm_num)
  have h4 : fsub (42501539 / 562949953421312 : ℚ) (1328173 / 17592186044416 : ℚ) = (3 / 562949953421312 : ℚ) :=
    roundF64_eval_pos (-48) 6755399441055744 (by norm_num) (by norm_num) (by norm_num)
      (by norm_num) (by norm_num) (by norm_num)
  have h5 : fmul (2 : ℚ) (427063790847255 / 158456325028528675187087900672 : ℚ) = (427063790847255 / 79228162514264337593543950336 : ℚ) :=
    roundF64_eval_pos (-48) 6833020653556080 (by norm_num) (by norm_num) (by norm_num)
      (by norm_num) (by norm_num) (by norm_num)
  have h6 : fsub (3 / 562949953421312 : ℚ) (427063790847255 / 79228162514264337593543950336 : ℚ) = (-4851325781271 / 79228162514264337593543950336 : ℚ) :=
    roundF64_eval_neg (-54) (-4967757600021504) (by norm_num) (by norm_num) (by norm_num)
      (by norm_num) (by norm_num) (by norm_num)
  simp only [codyWaite, Pi64_eq, fourOverPi64_eq, PI4A_eq, PI4B_eq, PI4C_eq, tab_sin_0_eq,
    tab_sin_1_eq, tab_sin_2_eq, tab_sin_3_eq, tab_sin_4_eq, tab_sin_5_eq, tab_cos_0_eq,
    tab_cos_1_eq, tab_cos_2_eq, tab_cos_3_eq, tab_cos_4_eq, tab_cos_5_eq, h1, h2, h3, h4, h5,
    h6]

theorem reduce_lat (K : MathRest) : reduce K (1619764637289445 / 2251799813685248 : ℚ) = (0, (1619764637289445 / 2251799813685248 : ℚ)) := by
  have hm : fmul (1619764637289445 / 2251799813685248 : ℚ) (5734161139222659 / 4503599627370496 : ℚ) = (2062348389360529 / 2251799813685248 : ℚ) :=
    roundF64_eval_pos (-1) 8249393557442116 (by norm_num) (by norm_num) (by norm_num)
      (by norm_num) (by norm_num) (by norm_num)
  have hf : ⌊(2062348389360529 / 2251799813685248 : ℚ)⌋ = 0 := Int.floor_eq_iff.mpr ⟨by norm_num, by norm_num⟩
  have hj : (toInt (2062348389360529 / 2251799813685248 : ℚ)).toNat = 0 := by
    unfold toInt
    rw [if_pos (by norm_num), hf]
    rfl
  have hy : roundF64 ((0 : ℕ) : ℚ) = (0 : ℚ) := by norm_num [roundF64_zero]
  unfold reduce
  rw [if_neg (by norm_num [reduceThreshold]), fourOverPi64_eq, hm, hj, if_neg (by decide), hy, codyWaite_lat]

theorem reduce_lon (K : MathRest) : reduce K (884279719003555 / 562949953421312 : ℚ) = (2, (-4851325781271 / 79228162514264337593543950336 : ℚ)) := by
  have hm : fmul (884279719003555 / 562949953421312 : ℚ) (5734161139222659 / 4503599627370496 : ℚ) = (2 : ℚ) :=
    roundF64_eval_pos 1 4503599627370496 (by norm_num) (by norm_num) (by norm_num)
      (by norm_num) (by norm_num) (by norm_num)
  have hf : ⌊(2 : ℚ)⌋ = 2 := Int.floor_eq_iff.mpr ⟨by norm_num, by norm_num⟩
  have hj : (toInt (2 : ℚ)).toNat = 2 := by
    unfold toInt
    rw [if_pos (by norm_num), hf]
    rfl
  have hy : roundF64 ((2 : ℕ) : ℚ) = (2 : ℚ) := by
    rw [Nat.cast_ofNat]
    exact roundF64_eval_pos 1 4503599627370496 (by norm_num) (by norm_num) (by norm_num) (by norm_num) (by norm_num) (by norm_num)
  unfold reduce
  rw [if_neg (by norm_num [reduceThreshold]), fourOverPi64_eq, hm, hj, if_neg (by decide), hy, codyWaite_lon]

theorem Sin64_phi (K : MathRest) : Sin64 K (-1619764637289445 / 2251799813685248 : ℚ) = (-2967301503771247 / 4503599627370496 : ℚ) := by
  have h0 : ¬ ((-1619764637289445 / 2251799813685248 : ℚ) = 0) := by norm_num
  have hlt : (-1619764637289445 / 2251799813685248 : ℚ) < 0 := by norm_num
  have hneg : -(-1619764637289445 / 2251799813685248 : ℚ) = (1619764637289445 / 2251799813685248 : ℚ) := by norm_num
  unfold Sin64
  rw [if_neg h0]
  simp only [if_pos hlt, hneg, reduce_lat K, sinKernel_lat]
  norm_num

theorem Sin64_lambda (K : MathRest) : Sin64 K (884279719003555 / 562949953421312 : ℚ) = (1 : ℚ) := by
  have h0 : ¬ ((884279719003555 / 562949953421312 : ℚ) = 0) := by norm_num
  have hlt : ¬ ((884279719003555 / 562949953421312 : ℚ) < 0) := by norm_num
  unfold Sin64
  rw [if_neg h0]
  simp only [if_neg hlt, reduce_lon K, cosKernel_lon]
  norm_num

theorem Cos64_lat (K : MathRest) : Cos64 K (1619764637289445 / 2251799813685248 : ℚ) = (6775701111875751 / 9007199254740992 : ℚ) := by
  have habs : |(1619764637289445 / 2251799813685248 : ℚ)| = (1619764637289445 / 2251799813685248 : ℚ) := abs_of_nonneg (by norm_num)
  unfold Cos64
  simp only [habs, reduce_lat K, cosKernel_lat]
  norm_num

theorem Cos64_neg_lat (K : MathRest) : Cos64 K (-1619764637289445 / 2251799813685248 : ℚ) = (6775701111875751 / 9007199254740992 : ℚ) := by
  have habs : |(-1619764637289445 / 2251799813685248 : ℚ)| = (1619764637289445 / 2251799813685248 : ℚ) := by rw [abs_of_nonpos (by norm_num)]; norm_num
  unfold Cos64
  simp only [habs, reduce_lat K, cosKernel_lat]
  norm_num

theorem radicand64_antipodal (K : MathRest) :
    radicand64 K (roundF64 41.214) 0 (roundF64 (-41.214)) 180 = (2251799813685249 / 2251799813685248 : ℚ) := by
  have ha : roundF64 41.214 = (725044355634561 / 17592186044416 : ℚ) :=
    roundF64_eval_pos 5 5800354845076488 (by norm_num) (by norm_num) (by norm_num)
      (by norm_num) (by norm_num) (by norm_num)
  have hb : roundF64 (-41.214) = (-725044355634561 / 17592186044416 : ℚ) :=
    roundF64_eval_neg 5 (-5800354845076488) (by norm_num) (by norm_num) (by norm_num)
      (by norm_num) (by norm_num) (by norm_num)
  have h1 : fmul (725044355634561 / 17592186044416 : ℚ) (884279719003555 / 281474976710656 : ℚ) = (1138897010594141 / 8796093022208 : ℚ) :=
    roundF64_eval_pos 7 4555588042376564 (by norm_num) (by norm_num) (by norm_num)
      (by norm_num) (by norm_num) (by norm_num)
  have h2 : fdiv (1138897010594141 / 8796093022208 : ℚ) 180.0 = (1619764637289445 / 2251799813685248 : ℚ) :=
    roundF64_eval_pos (-1) 6479058549157780 (by norm_num) (by norm_num) (by norm_num)
      (by norm_num) (by norm_num) (by norm_num)
  have h3 : fmul (0 : ℚ) (884279719003555 / 281474976710656 : ℚ) = (0 : ℚ) := by
    norm_num [fadd, fsub, fmul, fdiv, roundF64_zero]
  have h4 : fdiv (0 : ℚ) 180.0 = (0 : ℚ) := by
    norm_num [fadd, fsub, fmul, fdiv, roundF64_zero]
  have h5 : fmul (-725044355634561 / 17592186044416 : ℚ) (884279719003555 / 281474976710656 : ℚ) = (-1138897010594141 / 8796093022208 : ℚ) :=
    roundF64_eval_neg 7 (-4555588042376564) (by norm_num) (by norm_num) (by norm_num)
      (by norm_num) (by norm_num) (by norm_num)
  have h6 : fdiv (-1138897010594141 / 8796093022208 : ℚ) 180.0 = (-1619764637289445 / 2251799813685248 : ℚ) :=
    roundF64_eval_neg (-1) (-6479058549157780) (by norm_num) (by norm_num) (by norm_num)
      (by norm_num) (by norm_num) (by norm_num)
  have h7 : fmul (180 : ℚ) (884279719003555 / 281474976710656 : ℚ) = (4974073419394997 / 8796093022208 : ℚ) :=
    roundF64_eval_pos 9 4974073419394997 (by norm_num) (by norm_num) (by norm_num)
      (by norm_num) (by norm_num) (by norm_num)
  have h8 : fdiv (4974073419394997 / 8796093022208 : ℚ) 180.0 = (884279719003555 / 281474976710656 : ℚ) :=
    roundF64_eval_pos 1 7074237752028440 (by norm_num) (by norm_num) (by norm_num)
      (by norm_num) (by norm_num) (by norm_num)
  have h9 : fsub (-1619764637289445 / 2251799813685248 : ℚ) (1619764637289445 / 2251799813685248 : ℚ) = (-1619764637289445 / 1125899906842624 : ℚ) :=
    roundF64_eval_neg 0 (-6479058549157780) (by norm_num) (by norm_num) (by norm_num)
      (by norm_num) (by norm_num) (by norm_num)
  have h10 : fdiv (-1619764637289445 / 1125899906842624 : ℚ) 2.0 = (-1619764637289445 / 2251799813685248 : ℚ) :=
    roundF64_eval_neg (-1) (-6479058549157780) (by norm_num) (by norm_num) (by norm_num)
      (by norm_num) (by norm_num) (by norm_num)
  have h11 : fsub (884279719003555 / 281474976710656 : ℚ) (0 : ℚ) = (884279719003555 / 281474976710656 : ℚ) :=
    roundF64_eval_pos 1 7074237752028440 (by norm_num) (by norm_num) (by norm_num)
      (by norm_num) (by norm_num) (by norm_num)
  have h12 : fdiv (884279719003555 / 281474976710656 : ℚ) 2.0 = (884279719003555 / 562949953421312 : ℚ) :=
    roundF64_eval_pos 0 7074237752028440 (by norm_num) (by norm_num) (by norm_num)
      (by norm_num) (by norm_num) (by norm_num)
  have h13 : fmul (-2967301503771247 / 4503599627370496 : ℚ) (-2967301503771247 / 4503599627370496 : ℚ) = (1955075704503507 / 4503599627370496 : ℚ) :=
    roundF64_eval_pos (-2) 7820302818014028 (by norm_num) (by norm_num) (by norm_num)
      (by norm_num) (by norm_num) (by norm_num)
  have h14 : fmul (6775701111875751 / 9007199254740992 : ℚ) (6775701111875751 / 9007199254740992 : ℚ) = (5097047845733981 / 9007199254740992 : ℚ) :=
    roundF64_eval_pos (-1) 5097047845733981 (by norm_num) (by norm_num) (by norm_num)
      (by norm_num) (by norm_num) (by norm_num)
  have h15 : fmul (5097047845733981 / 9007199254740992 : ℚ) (1 : ℚ) = (5097047845733981 / 9007199254740992 : ℚ) :=
    roundF64_eval_pos (-1) 5097047845733981 (by norm_num) (by norm_num) (by norm_num)
      (by norm_num) (by norm_num) (by norm_num)
  have h16 : fadd (1955075704503507 / 4503599627370496 : ℚ) (5097047845733981 / 9007199254740992 : ℚ) = (2251799813685249 / 2251799813685248 : ℚ) :=
    roundF64_eval_tie 0 4503599627370498 (by norm_num) (by norm_num) (by norm_num) (by decide)
      (Or.inr (by norm_num)) (by norm_num)
  simp only [radicand64, ha, hb, Pi64_eq, h1, h2, h3, h4, h5, h6, h7, h8, h9, h10, h11, h12,
    h13, h14, h15, h16, Sin64_phi K, Sin64_lambda K, Cos64_lat K, Cos64_neg_lat K]

theorem sqrtRound_antipodal : sqrtRound (2251799813685249 / 2251799813685248 : ℚ) = (4503599627370497 / 4503599627370496 : ℚ) := by
  have hpos : (0 : ℚ) < (2251799813685249 / 2251799813685248 : ℚ) := by norm_num
  have hlog : Int.log 2 (2251799813685249 / 2251799813685248 : ℚ) = 0 := by
    have hlo : (0 : ℤ) ≤ Int.log 2 (2251799813685249 / 2251799813685248 : ℚ) :=
      (Int.zpow_le_iff_le_log (b := 2) (by norm_num) hpos).mp (by norm_num)
    have hhi : Int.log 2 (2251799813685249 / 2251799813685248 : ℚ) < 1 :=
      (Int.lt_zpow_iff_log_lt (b := 2) (by norm_num) hpos).mp (by norm_num)
    omega
  have hq : (2 : ℚ) ^ ((0 : ℤ) / 2 - 52) = 1 / 4503599627370496 := by norm_num
  have hy : (2251799813685249 / 2251799813685248 : ℚ) / (1 / 4503599627370496 * (1 / 4503599627370496))
      = ((20282409603651679431146506027008 : ℕ) : ℚ) := by norm_num
  have hs : Nat.sqrt 20282409603651679431146506027008 = 4503599627370496 := by
    symm
    rw [Nat.eq_sqrt]
    constructor <;> norm_num
  unfold sqrtRound
  simp only [hlog, hq, hy, Nat.floor_natCast, hs]
  norm_num

theorem haversine64_eq_radicand64 (K : MathRest) (lat1 lon1 lat2 lon2 : ℚ) :
    haversine64 K lat1 lon1 lat2 lon2
      = F64.mul (F64.mul (F64.asin K (Sqrt64 (radicand64 K lat1 lon1 lat2 lon2)))
          (F64.finite 2)) (F64.finite (roundF64 (6378.137 * 1000.0))) := rfl

/-- the float64 run of `haversine` on the antipodal pair `(41.214, 0)`, `(-41.214, 180)`:
the radicand is `1 + 2^-51`, its square root `1 + 2^-52`, and `math.Asin` returns NaN. -/
theorem haversine64_antipodal (K : MathRest) :
    radicand64 K (roundF64 41.214) 0 (roundF64 (-41.214)) 180 = (2251799813685249 / 2251799813685248 : ℚ) ∧
      Sqrt64 (2251799813685249 / 2251799813685248 : ℚ) = F64.finite (4503599627370497 / 4503599627370496 : ℚ) ∧
      haversine64 K (roundF64 41.214) 0 (roundF64 (-41.214)) 180 = F64.nan := by
  have hsq : Sqrt64 (2251799813685249 / 2251799813685248 : ℚ) = F64.finite (4503599627370497 / 4503599627370496 : ℚ) := by
    unfold Sqrt64
    rw [if_neg (by norm_num), if_neg (by norm_num), sqrtRound_antipodal]
  have has : Asin64 K (4503599627370497 / 4503599627370496 : ℚ) = F64.nan := by
    unfold Asin64
    rw [if_neg (by norm_num), if_pos (by rw [abs_of_nonneg (by norm_num)]; norm_num)]
  refine ⟨radicand64_antipodal K, hsq, ?_⟩
  rw [haversine64_eq_radicand64, radicand64_antipodal, hsq]
  simp only [F64.asin, has, F64.mul]

theorem sqrtRound_nonneg (x : ℚ) : 0 ≤ sqrtRound x := by
  have hq : (0 : ℚ) < 2 ^ (Int.log 2 x / 2 - 52) := zpow_pos (by norm_num) _
  unfold sqrtRound
  simp only
  split_ifs
  · exact mul_nonneg (Nat.cast_nonneg _) hq.le
  · exact mul_nonneg (by positivity) hq.le

theorem fmul_zero_right (x : ℚ) : fmul x 0 = 0 := by
  unfold fmul; rw [mul_zero]; exact roundF64_zero

theorem fmul_zero_left (x : ℚ) : fmul 0 x = 0 := by
  unfold fmul; rw [zero_mul]; exact roundF64_zero

theorem Sin64_zero (K : MathRest) : Sin64 K 0 = 0 := by
  unfold Sin64; rw [if_pos rfl]

/-- the float64 radicand of two equal points is 0. -/
theorem radicand64_self (K : MathRest) (lat lon : ℚ) : radicand64 K lat lon lat lon = 0 := by
  have h1 : ∀ r : ℚ, fdiv (fsub r r) 2.0 = 0 := by
    intro r
    unfold fdiv fsub
    rw [sub_self, roundF64_zero, zero_div, roundF64_zero]
  unfold radicand64
  simp only [h1, Sin64_zero, fmul_zero_right]
  unfold fadd
  rw [add_zero, roundF64_zero]

theorem haversine64_self (K : MathRest) (lat lon : ℚ) :
    haversine64 K lat lon lat lon = F64.finite 0 := by
  rw [haversine64_eq_radicand64, radicand64_self]
  have hs : Sqrt64 0 = F64.finite 0 := by
    unfold Sqrt64; rw [if_neg (lt_irrefl 0), if_pos rfl]
  have ha : Asin64 K 0 = F64.finite 0 := by
    unfold Asin64; rw [if_pos rfl]
  rw [hs]
  simp only [F64.asin, ha, F64.mul, fmul_zero_left]

theorem Asin64_finite_or_nan (K : MathRest) (x : ℚ) :
    (∃ v, Asin64 K x = F64.finite v) ∨ Asin64 K x = F64.nan := by
  unfold Asin64
  split_ifs
  · exact Or.inl ⟨_, rfl⟩
  · exact Or.inr rfl
  · exact Or.inl ⟨_, rfl⟩
  · exact Or.inl ⟨_, rfl⟩

/-- `haversine` in float64 is a finite number or NaN. -/
theorem haversine64_finite_or_nan (K : MathRest) (lat1 lon1 lat2 lon2 : ℚ) :
    (∃ d, haversine64 K lat1 lon1 lat2 lon2 = F64.finite d) ∨
      haversine64 K lat1 lon1 lat2 lon2 = F64.nan := by
  rw [haversine64_eq_radicand64]
  generalize Sqrt64 (radicand64 K lat1 lon1 lat2 lon2) = v
  cases v with
  | finite s =>
    have e : F64.asin K (F64.finite s) = Asin64 K s := rfl
    rw [e]
    rcases Asin64_finite_or_nan K s with ⟨v, hv⟩ | hn
    · rw [hv]; exact Or.inl ⟨_, rfl⟩
    · rw [hn]; exact Or.inr rfl
  | inf => exact Or.inr rfl
  | nan => exact Or.inr rfl

/-- when `haversine` in float64 is NaN: the radicand is negative, or its square root is
above 1. -/
theorem haversine64_eq_nan_iff (K : MathRest) (lat1 lon1 lat2 lon2 : ℚ) :
    haversine64 K lat1 lon1 lat2 lon2 = F64.nan ↔
      radicand64 K lat1 lon1 lat2 lon2 < 0 ∨
        1 < sqrtRound (radicand64 K lat1 lon1 lat2 lon2) := by
  rw [haversine64_eq_radicand64]
  generalize radicand64 K lat1 lon1 lat2 lon2 = r
  have hs0 := sqrtRound_nonneg r
  by_cases hneg : r < 0
  · have : Sqrt64 r = F64.nan := by unfold Sqrt64; rw [if_pos hneg]
    rw [this]
    simp [F64.asin, F64.mul, hneg]
  · by_cases hz : r = 0
    · subst hz
      have h1 : Sqrt64 0 = F64.finite 0 := by
        unfold Sqrt64; rw [if_neg (lt_irrefl 0), if_pos rfl]
      have h2 : Asin64 K 0 = F64.finite 0 := by unfold Asin64; rw [if_pos rfl]
      have h3 : ¬ (1 < sqrtRound 0) := by
        have : sqrtRound 0 = 0 := by
          unfold sqrtRound
          simp
        rw [this]; norm_num
      rw [h1]
      simp [F64.asin, h2, F64.mul, h3]
    · have h1 : Sqrt64 r = F64.finite (sqrtRound r) := by
        unfold Sqrt64; rw [if_neg hneg, if_neg hz]
      rw [h1]
      by_cases hgt : 1 < sqrtRound r
      · have hne : sqrtRound r ≠ 0 := by linarith
        have h2 : Asin64 K (sqrtRound r) = F64.nan := by
          unfold Asin64
          rw [if_neg hne, if_pos (by rw [abs_of_nonneg hs0]; exact hgt)]
        simp [F64.asin, h2, F64.mul, hgt]
      · have h2 : ∃ v, Asin64 K (sqrtRound r) = F64.finite v := by
          unfold Asin64
          split_ifs with a b
          · exact ⟨_, rfl⟩
          · exact absurd (by rwa [abs_of_nonneg hs0] at b) hgt
          · exact ⟨_, rfl⟩
          · exact ⟨_, rfl⟩
        obtain ⟨v, hv⟩ := h2
        simp [F64.asin, hv, F64.mul, hgt, hneg]

/-- with a divisor other than 0 the speed is NaN only when the distance is, and it is
never an infinity. -/
theorem Speed64_facts (K : MathRest) (ptLat ptLon lastLat lastLon : ℚ) {tdiff : Duration}
    (h : 0 < Duration.Hours tdiff) :
    (Speed64 K ptLat ptLon lastLat lastLon tdiff = F64.nan ↔
        haversine64 K ptLat ptLon lastLat lastLon = F64.nan) ∧
      Speed64 K ptLat ptLon lastLat lastLon tdiff ≠ F64.inf := by
  unfold Speed64
  rcases haversine64_finite_or_nan K ptLat ptLon lastLat lastLon with ⟨d, hd⟩ | hn
  · rw [hd]
    simp [F64.div, h.ne']
  · rw [hn]
    simp [F64.div]

/-- the float64 of the decimal text `41.214`. -/
theorem roundF64_lat_antipodal : roundF64 41.214 = (725044355634561 / 17592186044416 : ℚ) :=
  roundF64_eval_pos 5 5800354845076488 (by norm_num) (by norm_num) (by norm_num)
      (by norm_num) (by norm_num) (by norm_num)

/-- the float64 of the decimal text `-41.214`. -/
theorem roundF64_neg_lat_antipodal : roundF64 (-41.214) = (-725044355634561 / 17592186044416 : ℚ) :=
  roundF64_eval_neg 5 (-5800354845076488) (by norm_num) (by norm_num) (by norm_num)
      (by norm_num) (by norm_num) (by norm_num)

/-! ## The claims -/

/-- C1, as amended: for a pair of fixes `(last, next)` whose timestamps parse and whose
elapsed time `T = next.timestamp - last.timestamp` satisfies `0 ≤ T < 16777216` seconds,
the resampling loop emits exactly `floor(T)` samples for the pair. -/
theorem pair_sample_count (last pt : TrkPt) (u t : Time)
    (hl : last.Time = some u) (hp : pt.Time = some t)
    (h0 : 0 ≤ t - u) (h1 : t - u < 16777216 * 1000000000) :
    ((pairSamples last (Parse last.Time).1 pt).length : ℤ)
      = ⌊((t - u : ℤ) : ℚ) / 1000000000⌋ := by
  have hsub : Time.Sub t u = t - u :=
    Sub_eq (by unfold minDuration; linarith) (by unfold maxDuration; linarith)
  rw [length_pairSamples, hl, hp]
  simp only [Parse]
  rw [hsub, Seconds_toInt h0 h1, floor_elapsed_seconds]
  have : 0 ≤ (t - u) / Second := Int.ediv_nonneg h0 (by decide)
  rw [Int.toNat_of_nonneg this]
  rfl

/-- Witness of C1: the two fixes of the scenario, 3 s apart. -/
theorem pair_sample_count_witness :
    scenarioFix0.Time = some 1672531200000000000 ∧
    scenarioFix1.Time = some 1672531203000000000 ∧
    (0 : ℤ) ≤ 1672531203000000000 - 1672531200000000000 ∧
    (1672531203000000000 - 1672531200000000000 : ℤ) < 16777216 * 1000000000 ∧
    ((pairSamples scenarioFix0 (Parse scenarioFix0.Time).1 scenarioFix1).length : ℤ)
      = ⌊((1672531203000000000 - 1672531200000000000 : ℤ) : ℚ) / 1000000000⌋ :=
  ⟨rfl, rfl, by decide, by decide,
    pair_sample_count scenarioFix0 scenarioFix1 1672531200000000000 1672531203000000000
      rfl rfl (by decide) (by decide)⟩

/-- C1, counterexample: for the fixes at 1970-01-01T00:00:00Z and
1970-07-14T04:20:16.999999999Z the elapsed time is `T = 16777216.999999999 s ≥ 0`,
`floor(T) = 16777216`, and the loop emits `16777217 = floor(T) + 1` samples. -/
theorem pair_sample_count_long_gap :
    longGapFix0.Time = some 0 ∧ longGapFix1.Time = some 16777216999999999 ∧
    (0 : ℤ) ≤ 16777216999999999 - 0 ∧
    ⌊((16777216999999999 - 0 : ℤ) : ℚ) / 1000000000⌋ = 16777216 ∧
    (pairSamples longGapFix0 (Parse longGapFix0.Time).1 longGapFix1).length = 16777217 := by
  refine ⟨rfl, rfl, by decide, ?_, ?_⟩
  · rw [floor_elapsed_seconds]; decide
  · rw [length_pairSamples]
    have e : Time.Sub (Parse longGapFix1.Time).1 (Parse longGapFix0.Time).1
        = 16777216999999999 := by decide
    rw [e, Seconds_long_gap]
    have : toInt (16777217 : ℚ) = 16777217 := by
      unfold toInt
      rw [if_pos (by norm_num)]
      exact Int.floor_eq_iff.mpr ⟨by norm_num, by norm_num⟩
    rw [this]
    rfl


/-- C2, the run on the failing input: for the fixes at 00:00:00, 00:00:10 and 00:00:11
(non-decreasing timestamps) the rows are stamped 00:00:10 to 00:00:19 for the first pair
and 00:00:11 for the second pair, so the time falls from 1672531219 to 1672531211 at the
pair boundary. -/
theorem main_uneven_times :
    (main unevenTrack).map (List.map CSV.Time)
      = Except.ok [1672531210, 1672531211, 1672531212, 1672531213, 1672531214, 1672531215,
          1672531216, 1672531217, 1672531218, 1672531219, 1672531211] := by
  have e1 : (pairSamples scenarioFix0 (Parse scenarioFix0.Time).1 unevenFix1).map CSV.Time
      = (List.range (10000000000 / Second).toNat).map
          (fun i : ℕ => Time.Unix 1672531210000000000 + (i : ℤ)) :=
    times_of_count rfl (by decide) (by decide) (by decide)
  have e2 : (pairSamples unevenFix1 (Parse unevenFix1.Time).1 unevenFix2).map CSV.Time
      = (List.range (1000000000 / Second).toNat).map
          (fun i : ℕ => Time.Unix 1672531211000000000 + (i : ℤ)) :=
    times_of_count rfl (by decide) (by decide) (by decide)
  have n1 : ((10000000000 : ℤ) / Second).toNat = 10 := by decide
  have n2 : ((1000000000 : ℤ) / Second).toNat = 1 := by decide
  have u1 : Time.Unix 1672531210000000000 = 1672531210 := by decide
  have u2 : Time.Unix 1672531211000000000 = 1672531211 := by decide
  rw [n1, u1] at e1
  rw [n2, u2] at e2
  have hm : main unevenTrack = Except.ok
      (([] ++ pairSamples scenarioFix0 (Parse scenarioFix0.Time).1 unevenFix1)
        ++ pairSamples unevenFix1 (Parse unevenFix1.Time).1 unevenFix2) := rfl
  rw [hm]
  simp only [Except.map, List.nil_append, List.map_append, e1, e2]
  simp [List.range_succ]

/-- C3, the run on the scenario: for the two fixes at `t0 = 2023-01-01T00:00:00Z` and
`t0 + 3 s` exactly 3 rows are written, and they are stamped `t0+3, t0+4, t0+5`. -/
theorem main_scenario_times :
    (main scenarioTrack).map (List.map CSV.Time)
      = Except.ok [1672531203, 1672531204, 1672531205] := by
  have e1 : (pairSamples scenarioFix0 (Parse scenarioFix0.Time).1 scenarioFix1).map CSV.Time
      = (List.range (3000000000 / Second).toNat).map
          (fun i : ℕ => Time.Unix 1672531203000000000 + (i : ℤ)) :=
    times_of_count rfl (by decide) (by decide) (by decide)
  have n1 : ((3000000000 : ℤ) / Second).toNat = 3 := by decide
  have u1 : Time.Unix 1672531203000000000 = 1672531203 := by decide
  rw [n1, u1] at e1
  have hm : main scenarioTrack = Except.ok
      ([] ++ pairSamples scenarioFix0 (Parse scenarioFix0.Time).1 scenarioFix1) := rfl
  rw [hm]
  simp only [Except.map, List.nil_append, e1]
  simp [List.range_succ]

/-- C4: for every pair `(last, next)` and every `i` with `0 ≤ i < floor(elapsedSeconds)`,
`elapsedSeconds` being `tdiff.Seconds()`, the `i`-th row sent for the pair has
`Time = next.timestamp_unix + i`, `Lat = last.lat + i·(next.lat − last.lat)`,
`Lon = last.lon + i·(next.lon − last.lon)` and
`Altitude = last.ele + i·(next.ele − last.ele)`. -/
theorem pair_sample_values (last pt : TrkPt) (lastTime : Time) (i : ℕ)
    (hi : (i : ℤ) < ⌊Duration.Seconds (Time.Sub (Parse pt.Time).1 lastTime)⌋) :
    ∃ c : CSV, (pairSamples last lastTime pt)[i]? = some c ∧
      c.Time = Time.Unix (Parse pt.Time).1 + (i : ℤ) ∧
      c.Lat = last.Lat + (i : ℝ) * (pt.Lat - last.Lat) ∧
      c.Lon = last.Lon + (i : ℝ) * (pt.Lon - last.Lon) ∧
      c.Altitude = last.Ele + (i : ℝ) * (pt.Ele - last.Ele) := by
  have hlt : i < (toInt (Duration.Seconds (Time.Sub (Parse pt.Time).1 lastTime))).toNat := by
    rw [toInt_toNat_eq_floor_toNat]
    omega
  exact ⟨_, getElem?_pairSamples last lastTime pt i hlt, rfl, rfl, rfl, rfl⟩

/-- Witness of C4: the row of index 2 of the scenario pair. -/
theorem pair_sample_values_witness :
    ((2 : ℕ) : ℤ) < ⌊Duration.Seconds
        (Time.Sub (Parse scenarioFix1.Time).1 (Parse scenarioFix0.Time).1)⌋ ∧
    ∃ c : CSV, (pairSamples scenarioFix0 (Parse scenarioFix0.Time).1 scenarioFix1)[2]? = some c ∧
      c.Time = Time.Unix (Parse scenarioFix1.Time).1 + ((2 : ℕ) : ℤ) ∧
      c.Lat = scenarioFix0.Lat + ((2 : ℕ) : ℝ) * (scenarioFix1.Lat - scenarioFix0.Lat) ∧
      c.Lon = scenarioFix0.Lon + ((2 : ℕ) : ℝ) * (scenarioFix1.Lon - scenarioFix0.Lon) ∧
      c.Altitude = scenarioFix0.Ele + ((2 : ℕ) : ℝ) * (scenarioFix1.Ele - scenarioFix0.Ele) := by
  have e : Time.Sub (Parse scenarioFix1.Time).1 (Parse scenarioFix0.Time).1 = 3000000000 := by
    decide
  have hf : ⌊Duration.Seconds 3000000000⌋ = 3 := by
    rw [Seconds_floor (by decide) (by decide)]; decide
  have hi : ((2 : ℕ) : ℤ) < ⌊Duration.Seconds
      (Time.Sub (Parse scenarioFix1.Time).1 (Parse scenarioFix0.Time).1)⌋ := by
    rw [e, hf]; decide
  exact ⟨hi, pair_sample_values scenarioFix0 scenarioFix1 (Parse scenarioFix0.Time).1 2 hi⟩

/-- C5: every row sent for a pair `(last, next)` carries the same speed, namely
`haversine(next.lat, next.lon, last.lat, last.lon) / elapsedHours / 10` with
`elapsedHours = tdiff.Hours()`, the elapsed time between the two fixes in hours, which is
positive for a pair that has a row. -/
theorem pair_speed (last pt : TrkPt) (lastTime : Time) (c : CSV)
    (hc : c ∈ pairSamples last lastTime pt) :
    c.Speed = haversine pt.Lat pt.Lon last.Lat last.Lon
        / (Duration.Hours (Time.Sub (Parse pt.Time).1 lastTime) : ℝ) / 10 ∧
      0 < Duration.Hours (Time.Sub (Parse pt.Time).1 lastTime) := by
  have hpos : 0 < (toInt (Duration.Seconds (Time.Sub (Parse pt.Time).1 lastTime))).toNat := by
    rw [← length_pairSamples last lastTime pt]
    exact List.length_pos_of_mem hc
  unfold pairSamples innerLoop at hc
  obtain ⟨i, -, rfl⟩ := List.mem_map.mp hc
  exact ⟨rfl, Hours_pos_of_count_pos hpos⟩

/-- Witness of C5: the first row of the scenario pair. -/
theorem pair_speed_witness :
    innerBody scenarioFix0 scenarioFix1 (Parse scenarioFix1.Time).1
        (Time.Sub (Parse scenarioFix1.Time).1 (Parse scenarioFix0.Time).1)
        (haversine scenarioFix1.Lat scenarioFix1.Lon scenarioFix0.Lat scenarioFix0.Lon) 0
      ∈ pairSamples scenarioFix0 (Parse scenarioFix0.Time).1 scenarioFix1 ∧
    (innerBody scenarioFix0 scenarioFix1 (Parse scenarioFix1.Time).1
        (Time.Sub (Parse scenarioFix1.Time).1 (Parse scenarioFix0.Time).1)
        (haversine scenarioFix1.Lat scenarioFix1.Lon scenarioFix0.Lat scenarioFix0.Lon) 0).Speed
      = haversine scenarioFix1.Lat scenarioFix1.Lon scenarioFix0.Lat scenarioFix0.Lon
        / (Duration.Hours (Time.Sub (Parse scenarioFix1.Time).1 (Parse scenarioFix0.Time).1) : ℝ)
        / 10 ∧
      0 < Duration.Hours (Time.Sub (Parse scenarioFix1.Time).1 (Parse scenarioFix0.Time).1) := by
  have e : Time.Sub (Parse scenarioFix1.Time).1 (Parse scenarioFix0.Time).1 = 3000000000 := by
    decide
  have hn : (toInt (Duration.Seconds (Time.Sub (Parse scenarioFix1.Time).1
      (Parse scenarioFix0.Time).1))).toNat = 3 := by
    rw [e, Seconds_toInt (by decide) (by decide)]; decide
  have hm : innerBody scenarioFix0 scenarioFix1 (Parse scenarioFix1.Time).1
        (Time.Sub (Parse scenarioFix1.Time).1 (Parse scenarioFix0.Time).1)
        (haversine scenarioFix1.Lat scenarioFix1.Lon scenarioFix0.Lat scenarioFix0.Lon) 0
      ∈ pairSamples scenarioFix0 (Parse scenarioFix0.Time).1 scenarioFix1 := by
    unfold pairSamples innerLoop
    simp only
    rw [hn]
    exact List.mem_map.mpr ⟨0, by simp, rfl⟩
  exact ⟨hm, pair_speed _ _ _ _ hm⟩


/-- C6: `haversine` is symmetric in its two points:
`haversine(lat1, lon1, lat2, lon2) = haversine(lat2, lon2, lat1, lon1)` for all arguments. -/
theorem distance_symmetry (lat1 lon1 lat2 lon2 : ℝ) :
    haversine lat1 lon1 lat2 lon2 = haversine lat2 lon2 lat1 lon1 :=
  haversine_symm lat1 lon1 lat2 lon2

/-- C9: for all inputs in degrees `haversine` equals
`2·R·asin(√(sin²(Δlat/2) + cos(lat1)·cos(lat2)·sin²(Δlon/2)))` on the inputs converted to
radians with `R = 6378137` m, and `reverseHaversine` is the destination formula with the
same `R`. -/
theorem distance_formula (lat1 lon1 lat2 lon2 bearing distance : ℝ) :
    haversine lat1 lon1 lat2 lon2 = specDistance 6378137 lat1 lon1 lat2 lon2 ∧
      reverseHaversine lat1 lon1 bearing distance
        = specDestination 6378137 lat1 lon1 bearing distance ∧
      reverseHaversineR = haversineR := by
  have e180 : (180.0 : ℝ) = 180 := by norm_num
  have e2 : (2.0 : ℝ) = 2 := by norm_num
  have eR : reverseHaversineR = 6378137 := by unfold reverseHaversineR; norm_num
  refine ⟨?_, ?_, ?_⟩
  · unfold haversine specDistance radians
    simp only
    rw [haversineR_eq, e180, e2]
    ring_nf
  · unfold reverseHaversine specDestination radians
    simp only
    rw [eR, e180]
  · rw [eR, haversineR_eq]

/-- C10, counterexample: for the fixes `(lat=0.001, lon=0.0)` and `(lat=0.0, lon=0.0)` the
value of `haversine` is not in `[111.15, 111.25)`. -/
theorem distance_scenario_not_111_2 :
    ¬ (111.15 ≤ haversine 0.001 0.0 0.0 0.0 ∧ haversine 0.001 0.0 0.0 0.0 < 111.25) := by
  have h := haversine_example_bounds
  intro hc
  linarith [h.1, hc.2]

/-- C10, as amended: for the fixes `(lat=0.001, lon=0.0)` and `(lat=0.0, lon=0.0)`
`haversine` returns approximately 111.3 metres, a value in `[111.25, 111.35)`. -/
theorem distance_scenario :
    111.25 ≤ haversine 0.001 0.0 0.0 0.0 ∧ haversine 0.001 0.0 0.0 0.0 < 111.35 := by
  have h := haversine_example_bounds
  constructor <;> linarith [h.1, h.2]

/-- C19: for a pair whose elapsed time is less than 1 second (zero, a fraction of a second,
or negative), one pass of the outer loop sends no row, and the later fix of the pair and
its time become `last` and `lastTime` for the following pair. -/
theorem short_pair_emits_nothing (s : LoopState) (pt : TrkPt) (t : Time)
    (hp : pt.Time = some t) (h : t - s.lastTime < Second) :
    pairSamples s.last s.lastTime pt = [] ∧
      (loopBody s pt).sent = s.sent ∧
      (loopBody s pt).last = pt ∧
      (loopBody s pt).lastTime = t := by
  have ht : (Parse pt.Time).1 = t := by rw [hp]; rfl
  have hlen : (pairSamples s.last s.lastTime pt).length = 0 := by
    rw [length_pairSamples, ht]
    exact count_eq_zero_of_lt_Second (Sub_lt_Second h)
  have hnil : pairSamples s.last s.lastTime pt = [] := List.length_eq_zero.mp hlen
  refine ⟨hnil, ?_, rfl, ht⟩
  rw [sent_loopBody, hnil, List.append_nil]

/-- Witness of C19: the fixes of the scenario taken in reverse order, 3 s backwards. -/
theorem short_pair_emits_nothing_witness :
    scenarioFix0.Time = some 1672531200000000000 ∧
    (1672531200000000000 : ℤ) - 1672531203000000000 < Second ∧
    (pairSamples scenarioFix1 1672531203000000000 scenarioFix0 = [] ∧
      (loopBody { last := scenarioFix1, lastTime := 1672531203000000000, sent := [] }
        scenarioFix0).sent = [] ∧
      (loopBody { last := scenarioFix1, lastTime := 1672531203000000000, sent := [] }
        scenarioFix0).last = scenarioFix0 ∧
      (loopBody { last := scenarioFix1, lastTime := 1672531203000000000, sent := [] }
        scenarioFix0).lastTime = 1672531200000000000) :=
  ⟨rfl, by decide,
    short_pair_emits_nothing { last := scenarioFix1, lastTime := 1672531203000000000, sent := [] }
      scenarioFix0 1672531200000000000 rfl (by decide)⟩

/-- C15, the run on the failing input: for the two fixes of the scenario, which differ in
latitude and elevation, the row of index 1 sent for the pair has the latitude, the longitude
and the altitude of the ending fix. -/
theorem scenario_second_row_is_ending_fix :
    scenarioFix1.Lat ≠ scenarioFix0.Lat ∧
    ∃ c : CSV, (pairSamples scenarioFix0 (Parse scenarioFix0.Time).1 scenarioFix1)[1]? = some c ∧
      c.Lat = scenarioFix1.Lat ∧ c.Lon = scenarioFix1.Lon ∧ c.Altitude = scenarioFix1.Ele := by
  have e : Time.Sub (Parse scenarioFix1.Time).1 (Parse scenarioFix0.Time).1 = 3000000000 := by
    decide
  have hn : (toInt (Duration.Seconds (Time.Sub (Parse scenarioFix1.Time).1
      (Parse scenarioFix0.Time).1))).toNat = 3 := by
    rw [e, Seconds_toInt (by decide) (by decide)]; decide
  refine ⟨by unfold scenarioFix1 scenarioFix0; norm_num, _,
    getElem?_pairSamples scenarioFix0 (Parse scenarioFix0.Time).1 scenarioFix1 1
      (by rw [hn]; decide), ?_, ?_, ?_⟩
  · show scenarioFix0.Lat + ((1 : ℕ) : ℝ) * (scenarioFix1.Lat - scenarioFix0.Lat) = scenarioFix1.Lat
    push_cast; ring
  · show scenarioFix0.Lon + ((1 : ℕ) : ℝ) * (scenarioFix1.Lon - scenarioFix0.Lon) = scenarioFix1.Lon
    push_cast; ring
  · show scenarioFix0.Ele + ((1 : ℕ) : ℝ) * (scenarioFix1.Ele - scenarioFix0.Ele) = scenarioFix1.Ele
    push_cast; ring

/-- C16: for a pair of fixes a whole number `k ≥ 1` of seconds apart, every row sent for the
pair has the latitude, longitude and altitude of the normalised interpolation
`last + (i/elapsedSeconds)·(next − last)` exactly when `k = 1` or the two fixes do not differ
in latitude, longitude or elevation.  So the two forms agree on a pair of exactly 1 second,
and on every pair of 2 or more whole seconds whose fixes differ some row differs. -/
theorem interpolation_agreement (last pt : TrkPt) (u t : Time) (k : ℤ)
    (hp : pt.Time = some t) (hk : 1 ≤ k) (hspan : t - u = k * Second) :
    (∀ (i : ℕ) (c : CSV), (pairSamples last u pt)[i]? = some c →
        AgreesWithNormalised last pt (Duration.Seconds (Time.Sub t u) : ℝ) i c)
      ↔ (k = 1 ∨ (pt.Lat = last.Lat ∧ pt.Lon = last.Lon ∧ pt.Ele = last.Ele)) := by
  have ht : (Parse pt.Time).1 = t := by rw [hp]; rfl
  have hS : Second = 1000000000 := rfl
  constructor
  · intro hall
    by_cases hk1 : k = 1
    · exact Or.inl hk1
    · right
      have hk2 : 2 ≤ k := by omega
      have hspan2 : 2 * Second ≤ t - u := by rw [hspan, hS]; linarith
      have hsub : 2 * Second ≤ Time.Sub t u := le_Sub (by decide) (by decide) hspan2
      have hcnt := two_le_count hsub
      have hx : (2 : ℝ) ≤ (Duration.Seconds (Time.Sub t u) : ℝ) := by
        exact_mod_cast two_le_Seconds hsub
      have hget := getElem?_pairSamples last u pt 1 (by rw [ht]; omega)
      obtain ⟨h1, h2, h3⟩ := hall 1 _ hget
      exact ⟨eq_of_unnormalised_eq_normalised hx h1, eq_of_unnormalised_eq_normalised hx h2,
        eq_of_unnormalised_eq_normalised hx h3⟩
  · intro hor i c hc
    obtain ⟨hi, rfl⟩ := eq_innerBody_of_getElem? hc
    rw [ht] at hi
    rcases hor with hk1 | ⟨e1, e2, e3⟩
    · have hsub : Time.Sub t u = 1 * Second := by
        rw [Sub_eq (by rw [hspan, hk1]; decide) (by rw [hspan, hk1]; decide), hspan, hk1]
      have hsec : Duration.Seconds (Time.Sub t u) = 1 := by
        rw [hsub]
        exact_mod_cast Seconds_whole (s := 1) (by decide)
      have hi0 : i = 0 := by
        rw [hsec] at hi
        have : (toInt (1 : ℚ)).toNat = 1 := by
          unfold toInt
          rw [if_pos (by norm_num), Int.floor_one]; rfl
        omega
      subst hi0
      unfold AgreesWithNormalised specInterpolate innerBody
      simp
    · unfold AgreesWithNormalised specInterpolate innerBody
      simp [e1, e2, e3]

/-- Witness of C16: the pair of the scenario, 3 s apart. -/
theorem interpolation_agreement_witness :
    scenarioFix1.Time = some 1672531203000000000 ∧ (1 : ℤ) ≤ 3 ∧
    (1672531203000000000 : ℤ) - 1672531200000000000 = 3 * Second ∧
    ((∀ (i : ℕ) (c : CSV),
        (pairSamples scenarioFix0 1672531200000000000 scenarioFix1)[i]? = some c →
        AgreesWithNormalised scenarioFix0 scenarioFix1
          (Duration.Seconds (Time.Sub 1672531203000000000 1672531200000000000) : ℝ) i c)
      ↔ ((3 : ℤ) = 1 ∨ (scenarioFix1.Lat = scenarioFix0.Lat ∧ scenarioFix1.Lon = scenarioFix0.Lon ∧
          scenarioFix1.Ele = scenarioFix0.Ele))) :=
  ⟨rfl, by decide, by decide,
    interpolation_agreement scenarioFix0 scenarioFix1 1672531200000000000 1672531203000000000 3
      rfl (by decide) (by decide)⟩

/-- C11: a segment with exactly 1 fix yields zero rows and no error: the outer loop runs
over no pair, `main` sends nothing, and every run of the two goroutines that ends has closed
`csvChan` and handed the empty list to the sink; such a run exists. -/
theorem single_fix_yields_nothing (name : String) (fix : TrkPt) (segs : List TrkSeg) :
    main { Trk := { Name := name, TrkSeg := { TrkPt := [fix] } :: segs } } = Except.ok [] ∧
      outerLoop { last := fix, lastTime := (Parse fix.Time).1, sent := [] } []
        = { last := fix, lastTime := (Parse fix.Time).1, sent := [] } ∧
      pipelineOf { Trk := { Name := name, TrkSeg := { TrkPt := [fix] } :: segs } }
        = Except.ok (Pipeline.start []) ∧
      (∀ s, Pipeline.Reaches (Pipeline.start []) s → s.producer = ProducerAt.returned →
        s.closed = true ∧ s.marshalled = [[]]) ∧
      (∃ s, Pipeline.Reaches (Pipeline.start []) s ∧ s.producer = ProducerAt.returned) := by
  obtain ⟨hsafe, -, -, hex⟩ := handoff_facts []
  refine ⟨rfl, rfl, rfl, ?_, hex⟩
  intro s hs hp
  obtain ⟨hm, hc, -⟩ := (hsafe s hs).2.2 hp
  exact ⟨hc, hm⟩

/-- C12: if the decoded track has zero segments, or its first segment has zero points, the
run ends in a panic before the consumer is started and before the resampling loop, so that
no row is sent and nothing is written. -/
theorem empty_track_panics (gpx : gpxStruct)
    (h : gpx.Trk.TrkSeg = [] ∨
      ∃ seg segs, gpx.Trk.TrkSeg = seg :: segs ∧ seg.TrkPt = []) :
    main gpx = Except.error RuntimePanic.indexOutOfRange ∧
      pipelineOf gpx = Except.error RuntimePanic.indexOutOfRange := by
  have hm : main gpx = Except.error RuntimePanic.indexOutOfRange := by
    rcases h with h | ⟨seg, segs, h, hpt⟩
    · unfold main; rw [h]
    · unfold main; rw [h]; simp only; rw [hpt]
  refine ⟨hm, ?_⟩
  unfold pipelineOf
  rw [hm]

/-- Witness of C12: a document without a segment, and one whose first segment is empty. -/
theorem empty_track_panics_witness :
    ((({ Trk := { Name := "", TrkSeg := [] } } : gpxStruct).Trk.TrkSeg = [] ∨
        ∃ seg segs, ({ Trk := { Name := "", TrkSeg := [] } } : gpxStruct).Trk.TrkSeg = seg :: segs ∧
          seg.TrkPt = []) ∧
      main { Trk := { Name := "", TrkSeg := [] } } = Except.error RuntimePanic.indexOutOfRange ∧
      pipelineOf { Trk := { Name := "", TrkSeg := [] } }
        = Except.error RuntimePanic.indexOutOfRange) ∧
    main { Trk := { Name := "", TrkSeg := [{ TrkPt := [] }] } }
      = Except.error RuntimePanic.indexOutOfRange :=
  ⟨⟨Or.inl rfl, empty_track_panics { Trk := { Name := "", TrkSeg := [] } } (Or.inl rfl)⟩,
    (empty_track_panics { Trk := { Name := "", TrkSeg := [{ TrkPt := [] }] } }
      (Or.inr ⟨{ TrkPt := [] }, [], rfl, rfl⟩)).1⟩

/-- C13, the runs on the failing inputs: `time.Parse` reports the error for the fix whose
time does not parse and the run goes on with the zero `Time`.  With that fix last in the
segment the run ends without an error (and without a row), the elapsed time having been
computed from the zero `Time`; with that fix first and the fix of 2023-01-01T00:00:03Z
second, the elapsed time of the pair is the largest `Duration` and 9223372036 rows are
sent. -/
theorem unparsed_time_run :
    Parse unparsedFix.Time = (zeroTime, true) ∧
    Time.Sub (Parse unparsedFix.Time).1 (Parse scenarioFix0.Time).1 = minDuration ∧
    main unparsedLastTrack = Except.ok [] ∧
    Time.Sub (Parse scenarioFix1.Time).1 (Parse unparsedFix.Time).1 = maxDuration ∧
    ∃ rows, main unparsedTrack = Except.ok rows ∧ rows.length = 9223372036 := by
  have hsub : Time.Sub (Parse scenarioFix1.Time).1 (Parse unparsedFix.Time).1 = maxDuration := by
    decide
  have hneg : Time.Sub (Parse unparsedFix.Time).1 (Parse scenarioFix0.Time).1 = minDuration := by
    decide
  have hnil : pairSamples scenarioFix0 (Parse scenarioFix0.Time).1 unparsedFix = [] := by
    apply List.length_eq_zero.mp
    rw [length_pairSamples, hneg]
    exact count_eq_zero_of_lt_Second (by decide)
  have hmain : main unparsedLastTrack
      = Except.ok ([] ++ pairSamples scenarioFix0 (Parse scenarioFix0.Time).1 unparsedFix) := rfl
  refine ⟨rfl, hneg, by rw [hmain, hnil]; rfl, hsub,
    [] ++ pairSamples unparsedFix (Parse unparsedFix.Time).1 scenarioFix1, rfl, ?_⟩
  rw [List.nil_append, length_pairSamples, hsub, count_maxDuration]

/-- C14: the rows `main` sends being `rows`, in every state of every interleaving of the
two goroutines the lists handed to the sink are none or the single list `rows`, in the
order of sending; the list is handed over only after `csvChan` has been closed; when
`main` has returned it has been handed over exactly once.  No state before the return is
stuck, every step lowers a bound on the steps that are left, and a run to the return
exists. -/
theorem sink_receives_generated_rows (gpx : gpxStruct) (rows : List CSV)
    (h : main gpx = Except.ok rows) :
    pipelineOf gpx = Except.ok (Pipeline.start rows) ∧
    (∀ s, Pipeline.Reaches (Pipeline.start rows) s →
        (s.marshalled = [] ∨ s.marshalled = [rows]) ∧
        (s.marshalled ≠ [] → s.closed = true ∧ s.csvList = rows) ∧
        (s.producer = ProducerAt.returned →
          s.marshalled = [rows] ∧ s.closed = true ∧ s.consumer = ConsumerAt.finished)) ∧
    (∀ s, Pipeline.Reaches (Pipeline.start rows) s → s.producer ≠ ProducerAt.returned →
        ∃ s', Pipeline.Step s s') ∧
    (∀ s s', Pipeline.Step s s' → s'.stepsLeft < s.stepsLeft) ∧
    (∃ s, Pipeline.Reaches (Pipeline.start rows) s ∧ s.producer = ProducerAt.returned) := by
  refine ⟨?_, handoff_facts rows⟩
  unfold pipelineOf
  rw [h]

/-- Witness of C14: the document of the scenario. -/
theorem sink_receives_generated_rows_witness :
    main scenarioTrack
      = Except.ok ([] ++ pairSamples scenarioFix0 (Parse scenarioFix0.Time).1 scenarioFix1) ∧
    ∃ s, Pipeline.Reaches
        (Pipeline.start ([] ++ pairSamples scenarioFix0 (Parse scenarioFix0.Time).1 scenarioFix1)) s ∧
      s.producer = ProducerAt.returned :=
  ⟨rfl, (sink_receives_generated_rows scenarioTrack
    ([] ++ pairSamples scenarioFix0 (Parse scenarioFix0.Time).1 scenarioFix1) rfl).2.2.2.2⟩

/-- C17, as amended: for a segment of `n ≥ 1` fixes whose timestamps are whole seconds,
non-decreasing, and at most 9223372036 s apart from one fix to the next, the number of rows
sent over all pairs is the timestamp of the last fix minus that of the first, in seconds. -/
theorem total_sample_count (name : String) (fix0 : TrkPt) (rest : List TrkPt)
    (segs : List TrkSeg) (s0 : ℤ) (secs : List ℤ)
    (h0 : fix0.Time = some (s0 * Second))
    (hrest : rest.map TrkPt.Time = secs.map (fun a => some (a * Second)))
    (hchain : List.Chain (fun a b => a ≤ b ∧ b - a ≤ 9223372036) s0 secs) :
    ∃ rows, main { Trk := { Name := name, TrkSeg := { TrkPt := fix0 :: rest } :: segs } }
        = Except.ok rows ∧
      (rows.length : ℤ) = (s0 :: secs).getLast (List.cons_ne_nil _ _) - s0 := by
  refine ⟨_, rfl, ?_⟩
  have h1 : (Parse fix0.Time).1 = s0 * Second := by rw [h0]; rfl
  have := length_sent_outerLoop_whole secs
    { last := fix0, lastTime := (Parse fix0.Time).1, sent := [] } rest s0 h1 hrest hchain
  simpa using this

/-- Witness of C17: the document of the scenario, 3 rows. -/
theorem total_sample_count_witness :
    scenarioFix0.Time = some (1672531200 * Second) ∧
    [scenarioFix1].map TrkPt.Time = [1672531203].map (fun a : ℤ => some (a * Second)) ∧
    List.Chain (fun a b : ℤ => a ≤ b ∧ b - a ≤ 9223372036) 1672531200 [1672531203] ∧
    ∃ rows, main scenarioTrack = Except.ok rows ∧
      (rows.length : ℤ)
        = ((1672531200 : ℤ) :: [1672531203]).getLast (List.cons_ne_nil _ _) - 1672531200 :=
  ⟨by decide, by decide, List.Chain.cons ⟨by decide, by decide⟩ List.Chain.nil,
    total_sample_count "scenario" scenarioFix0 [scenarioFix1] [] 1672531200 [1672531203]
      (by decide) (by decide) (List.Chain.cons ⟨by decide, by decide⟩ List.Chain.nil)⟩

/-- C17, counterexample: for the segment with the two fixes at 1700-01-01T00:00:00Z and
2100-01-01T00:00:00Z, whole seconds in non-decreasing order, the last timestamp minus the
first is 12622780800 s, and 9223372036 rows are sent. -/
theorem century_track_count :
    centuryFix0.Time = some (-8520336000 * Second) ∧
    centuryFix1.Time = some (4102444800 * Second) ∧
    (4102444800 : ℤ) - (-8520336000) = 12622780800 ∧
    ∃ rows, main centuryTrack = Except.ok rows ∧ rows.length = 9223372036 := by
  have hsub : Time.Sub (Parse centuryFix1.Time).1 (Parse centuryFix0.Time).1 = maxDuration := by
    decide
  refine ⟨rfl, rfl, by decide,
    [] ++ pairSamples centuryFix0 (Parse centuryFix0.Time).1 centuryFix1, rfl, ?_⟩
  rw [List.nil_append, length_pairSamples, hsub, count_maxDuration]


/-- C7, the run on the failing input: for the points `a = (41.214, 0)` and
`b = (-41.214, 180)`, both in range, `haversine(a, b)` evaluated in float64 is NaN, whatever
`math.Asin` returns inside `[-1, 1]`, and NaN is not a number `≥ 0`; the other half of the
claim holds of the code: `haversine(a, a)` is `0` for every point `a`. -/
theorem distance_antipodal_not_nonneg (K : MathRest) (lat lon : ℚ) :
    haversine64 K (roundF64 41.214) 0 (roundF64 (-41.214)) 180 = F64.nan ∧
      ¬ F64.IsNonneg (haversine64 K (roundF64 41.214) 0 (roundF64 (-41.214)) 180) ∧
      haversine64 K lat lon lat lon = F64.finite 0 := by
  have h := (haversine64_antipodal K).2.2
  refine ⟨h, ?_, haversine64_self K lat lon⟩
  rw [h]
  exact fun hn => hn

/-- C8, the run on the failing input: the points `(41.214, 0)` and `(-41.214, 180)` have
their latitudes in `[-90, 90]` and their longitudes in `[-180, 180]`; the value `haversine`
passes to `math.Sqrt` is `1 + 2^-51`, the value it passes to `math.Asin` is `1 + 2^-52`,
which is not in `[0, 1]`, `math.Asin` returns NaN for it and `haversine` returns NaN. -/
theorem distance_antipodal_leaves_domain (K : MathRest) :
    ((-90 ≤ roundF64 41.214 ∧ roundF64 41.214 ≤ 90) ∧
        (-90 ≤ roundF64 (-41.214) ∧ roundF64 (-41.214) ≤ 90) ∧
        ((-180 : ℚ) ≤ 0 ∧ (0 : ℚ) ≤ 180) ∧ ((-180 : ℚ) ≤ 180 ∧ (180 : ℚ) ≤ 180)) ∧
      radicand64 K (roundF64 41.214) 0 (roundF64 (-41.214)) 180 = 1 + 1 / 2 ^ 51 ∧
      Sqrt64 (radicand64 K (roundF64 41.214) 0 (roundF64 (-41.214)) 180)
        = F64.finite (1 + 1 / 2 ^ 52) ∧
      ¬ ((1 : ℚ) + 1 / 2 ^ 52 ≤ 1) ∧
      Asin64 K (1 + 1 / 2 ^ 52) = F64.nan ∧
      haversine64 K (roundF64 41.214) 0 (roundF64 (-41.214)) 180 = F64.nan := by
  obtain ⟨hr, hs, hn⟩ := haversine64_antipodal K
  have e1 : (1 + 1 / 2 ^ 51 : ℚ) = 2251799813685249 / 2251799813685248 := by norm_num
  have e2 : (1 + 1 / 2 ^ 52 : ℚ) = 4503599627370497 / 4503599627370496 := by norm_num
  have has : Asin64 K (1 + 1 / 2 ^ 52) = F64.nan := by
    unfold Asin64
    rw [if_neg (by norm_num), if_pos (by rw [abs_of_nonneg (by norm_num)]; norm_num)]
  refine ⟨⟨?_, ?_, ?_, ?_⟩, ?_, ?_, by norm_num, has, hn⟩
  · rw [roundF64_lat_antipodal]; norm_num
  · rw [roundF64_neg_lat_antipodal]; norm_num
  · norm_num
  · norm_num
  · rw [hr, e1]
  · rw [hr, hs, e2]

/-- C18, the run on the failing input: for the fixes `(-41.214, 180)` and `(41.214, 0)`,
3 seconds apart, the loop sends 3 rows; the elapsed time is at least 1 second and
`tdiff.Hours()` is positive, so the divisor is not zero; but the distance of the pair is
NaN, and the speed `d / tdiff.Hours() / 10.` written to the rows is NaN, not a number
`≥ 0`. -/
theorem speed_antipodal_nan (K : MathRest) :
    ((antipodalFix1.Lat, antipodalFix1.Lon, antipodalFix0.Lat, antipodalFix0.Lon)
        = (((roundF64 41.214 : ℚ) : ℝ), ((0 : ℚ) : ℝ), ((roundF64 (-41.214) : ℚ) : ℝ),
            ((180 : ℚ) : ℝ))) ∧
      (pairSamples antipodalFix0 (Parse antipodalFix0.Time).1 antipodalFix1).length = 3 ∧
      Second ≤ Time.Sub (Parse antipodalFix1.Time).1 (Parse antipodalFix0.Time).1 ∧
      0 < Duration.Hours (Time.Sub (Parse antipodalFix1.Time).1 (Parse antipodalFix0.Time).1) ∧
      haversine64 K (roundF64 41.214) 0 (roundF64 (-41.214)) 180 = F64.nan ∧
      Speed64 K (roundF64 41.214) 0 (roundF64 (-41.214)) 180
          (Time.Sub (Parse antipodalFix1.Time).1 (Parse antipodalFix0.Time).1) = F64.nan ∧
      ¬ F64.IsNonneg (Speed64 K (roundF64 41.214) 0 (roundF64 (-41.214)) 180
          (Time.Sub (Parse antipodalFix1.Time).1 (Parse antipodalFix0.Time).1)) := by
  have e : Time.Sub (Parse antipodalFix1.Time).1 (Parse antipodalFix0.Time).1 = 3000000000 := by
    decide
  have hn : (toInt (Duration.Seconds (Time.Sub (Parse antipodalFix1.Time).1
      (Parse antipodalFix0.Time).1))).toNat = 3 := by
    rw [e, Seconds_toInt (by decide) (by decide)]; decide
  have hH : 0 < Duration.Hours (Time.Sub (Parse antipodalFix1.Time).1
      (Parse antipodalFix0.Time).1) := by
    rw [e]; exact Hours_pos (by decide)
  have hd := (haversine64_antipodal K).2.2
  have hS := (Speed64_facts K (roundF64 41.214) 0 (roundF64 (-41.214)) 180 hH).1.mpr hd
  refine ⟨rfl, ?_, ?_, hH, hd, hS, ?_⟩
  · rw [length_pairSamples, hn]
  · rw [e]; decide
  · rw [hS]
    exact fun h => h

end Gpx2ts
